import Mathlib

/-!
# Sprite-Splitter: the paging table check and the frame loop of `split_sprite`

A shallow embedding of `src/program.cpp`:

* `load_table` (lines 60-68), the size test run on the paging table file;
* `__is_data_correct__` (lines 73-78), the test of a record against its sheet;
* `split_sprite` (lines 83-141), the loop over the frame keys of one sprite
  description file;
* the size filter of `main` (line 247).

Buffers are lists of bytes.  The program reads them through
`reinterpret_cast`, so a 16-bit or 32-bit value is the little-endian
combination of consecutive bytes (the layout of the x86 targets the program
is built for).  The arithmetic the source does on `unsigned`/`uint32_t` values
is reduced modulo `2 ^ 32` at every operation.

A C++ read outside a vector is undefined behaviour.  The embedding makes it
explicit: every memory access goes through `Traced`, which records the
accesses that stayed inside their buffer and stops at the first one that does
not (`Res.fault`).

The crop of line 126 goes through `Traced` as well.  `cv::Mat::operator()`
checks that the rectangle lies inside the sheet and throws `cv::Exception`
when it does not; neither `split_sprite` nor `main` has a handler, so the
program terminates there.  Such a crop is the `Res.fault` of its iteration,
and the loop ends with it.

Outside the embedding: the command line, the directory iteration, the image
codec (`cv::imread`, `cv::imwrite`) and `fs::create_directory`.  A frame is
*emitted* when the crop of line 126 returned and the loop reaches the
`imwrite` of line 138 with it; an `Image` is what line 138 hands to
`cv::imwrite`, whose own result only decides the message of line 139.
-/

namespace SpriteSplitter

/-! ## Constants (lines 40-42) -/

/-- Number of attributes per entry in the paging table. -/
def ATT_LEN : Nat := 11

/-- Byte size of a single word. -/
def ATT_SIZE : Nat := 2

/-- Byte size of a double word. -/
def DW : Nat := 4

/-! ## Buffers and machine arithmetic -/

/-- The contents of a `std::vector<uint8_t>`. -/
abbrev Buffer := List (Fin 256)

/-- Reduction of a value to `uint32_t`. -/
def wrap32 (n : Nat) : Nat := n % 2 ^ 32

/-- The difference `a - b` of two `uint32_t` values, as a `uint32_t`. -/
def sub32 (a b : Nat) : Nat := (a + 2 ^ 32 - b) % 2 ^ 32

/-- The `uint16_t` stored at byte `i` of `b`, when both of its bytes are in `b`. -/
def readU16 (b : Buffer) (i : Nat) : Option Nat := do
  let b0 ← b[i]?
  let b1 ← b[i + 1]?
  pure (b0.val + 256 * b1.val)

/-- The `uint32_t` stored at byte `i` of `b`, when its four bytes are in `b`. -/
def readU32 (b : Buffer) (i : Nat) : Option Nat := do
  let b0 ← b[i]?
  let b1 ← b[i + 1]?
  let b2 ← b[i + 2]?
  let b3 ← b[i + 3]?
  pure (b0.val + 256 * b1.val + 65536 * b2.val + 16777216 * b3.val)

/-! ## Traced memory accesses -/

/-- One memory access of `split_sprite`. -/
inductive Access where
  /-- `width` bytes of the paging table, from byte `offset` on. -/
  | table (offset width : Nat)
  /-- `width` bytes of the sprite description file, from byte `offset` on. -/
  | descriptor (offset width : Nat)
  /-- The element `sheets[index]` of the vector of sheets. -/
  | sheet (index : Nat)
  /-- The region `cv::Rect(x, y, width, height)` of `sheets[index]` (line 126). -/
  | crop (index x y width height : Nat)
  deriving DecidableEq, Repr

/-- The value of a computation, or the access that left its buffer: a read
outside a vector, or a crop outside its sheet. -/
inductive Res (α : Type) where
  | ok (value : α)
  | fault (access : Access)
  deriving DecidableEq, Repr

/-- A computation together with the accesses it performed inside their buffers,
in the order of the source. -/
structure Traced (α : Type) where
  reads : List Access
  result : Res α
  deriving DecidableEq, Repr

/-- A computation without memory access. -/
def Traced.pure {α : Type} (a : α) : Traced α := ⟨[], .ok a⟩

/-- Sequencing: the second computation runs only when the first one did not fault. -/
def Traced.bind {α β : Type} (m : Traced α) (f : α → Traced β) : Traced β :=
  match m.result with
  | .fault a => ⟨m.reads, .fault a⟩
  | .ok v => ⟨m.reads ++ (f v).reads, (f v).result⟩

instance : Monad Traced where
  pure := Traced.pure
  bind := Traced.bind

/-- The accesses a computation attempted: those that succeeded, then the one
that faulted, if any. -/
def Traced.attempted {α : Type} (m : Traced α) : List Access :=
  match m.result with
  | .ok _ => m.reads
  | .fault a => m.reads ++ [a]

/-- Read of a `uint16_t` of the table (`data[j]` in the source). -/
def tableWord (table : Buffer) (offset : Nat) : Traced Nat :=
  match readU16 table offset with
  | some v => ⟨[.table offset 2], .ok v⟩
  | none => ⟨[], .fault (.table offset 2)⟩

/-- Read of a `uint32_t` of the table. -/
def tableDword (table : Buffer) (offset : Nat) : Traced Nat :=
  match readU32 table offset with
  | some v => ⟨[.table offset 4], .ok v⟩
  | none => ⟨[], .fault (.table offset 4)⟩

/-- Read of a `uint32_t` of the sprite description file. -/
def descDword (sprt_info : Buffer) (offset : Nat) : Traced Nat :=
  match readU32 sprt_info offset with
  | some v => ⟨[.descriptor offset 4], .ok v⟩
  | none => ⟨[], .fault (.descriptor offset 4)⟩

/-! ## Sheets -/

/-- The part of a `cv::Mat` the program looks at: its number of rows (the
height of the image) and of columns (its width). -/
structure Sheet where
  rows : Nat
  cols : Nat
  deriving DecidableEq, Repr

/-- `cv::Mat::empty()`: a sheet that `cv::imread` could not decode has no
element. -/
def Sheet.empty (s : Sheet) : Bool := s.rows == 0 || s.cols == 0

/-- The access `sheets[index]`. -/
def sheetAt (sheets : List Sheet) (index : Nat) : Traced Sheet :=
  match sheets[index]? with
  | some s => ⟨[.sheet index], .ok s⟩
  | none => ⟨[], .fault (.sheet index)⟩

/-- The crop `sheet(cv::Rect(x, y, width, height))` of line 126, on the sheet
`sheets[index]`.  `cv::Mat::operator()(const Rect&)` builds the region with the
constructor `Mat(const Mat& m, const Rect& roi)`, which asserts
`0 <= roi.x && 0 <= roi.width && roi.x + roi.width <= m.cols && 0 <= roi.y &&
0 <= roi.height && roi.y + roi.height <= m.rows` and throws `cv::Exception`
otherwise.  The four values come from `uint16_t` fields, so only the two upper
bounds can fail. -/
def cropSheet (sheet : Sheet) (index x y width height : Nat) : Traced Unit :=
  if x + width ≤ sheet.cols ∧ y + height ≤ sheet.rows then
    ⟨[.crop index x y width height], .ok ()⟩
  else ⟨[], .fault (.crop index x y width height)⟩

/-! ## `load_table` (lines 60-68) -/

/-- What `load_table` does with the contents of the table file. -/
inductive Load where
  /-- The table is returned. -/
  | accepted (table : Buffer)
  /-- The string thrown by line 65. -/
  | rejected (message : String)
  /-- The read of `n_entries` leaves the buffer (fewer than four bytes). -/
  | outOfBounds
  deriving DecidableEq, Repr

/-- The value compared with `table.size()` on line 64,
`n_entries*(DW + ATT_LEN*ATT_SIZE) + DW` in `unsigned` arithmetic. -/
def declaredSize (n_entries : Nat) : Nat :=
  wrap32 (wrap32 (n_entries * (DW + ATT_LEN * ATT_SIZE)) + DW)

/-- Embedding of `load_table`, on the bytes `load_buffer` returned. -/
def load_table (file : Buffer) : Load :=
  match readU32 file 0 with
  | none => .outOfBounds
  | some n_entries =>
    if declaredSize n_entries > file.length then .rejected "Invalid table size"
    else .accepted file

/-! ## `__is_data_correct__` (lines 73-78) -/

/-- Embedding of `__is_data_correct__`; `data` points at byte `g` of the table.
The conjunction is evaluated left to right and stops at the first false
operand. -/
def __is_data_correct__ (table : Buffer) (g : Nat) (sheet : Sheet) : Traced Bool :=
  if sheet.empty then pure false else do
    let d0 ← tableWord table (g + ATT_SIZE * 0)
    if ¬ d0 < sheet.rows then pure false else do
      let d1 ← tableWord table (g + ATT_SIZE * 1)
      if ¬ d1 < sheet.cols then pure false else do
        let d2 ← tableWord table (g + ATT_SIZE * 2)
        let d1 ← tableWord table (g + ATT_SIZE * 1)
        if ¬ d2 + d1 < sheet.cols then pure false else do
          let d3 ← tableWord table (g + ATT_SIZE * 3)
          let d0 ← tableWord table (g + ATT_SIZE * 0)
          pure (decide (d3 + d0 < sheet.rows))

/-! ## `split_sprite` (lines 83-141) -/

/-- A path, as the list of its components. -/
abbrev FsPath := List String

/-- `p.filename()`: the last component of a path. -/
def filename (p : FsPath) : String := p.getLastD ""

/-- The values read before the loop (lines 86-91). -/
structure Setup where
  n_entries : Nat
  lowest_entry : Nat
  highest_entry : Nat
  attrib_offset : Nat
  n_sprites : Nat
  deriving DecidableEq, Repr

/-- The image handed to `cv::imwrite`: the crop of `sheets[sheetIndex]` by
`cv::Rect(x, y, width, height)`, which lies inside the sheet, and the file it
is written to. -/
structure Image where
  output : FsPath
  sheetIndex : Nat
  x : Nat
  y : Nat
  width : Nat
  height : Nat
  deriving DecidableEq, Repr

/-- The three `continue` statements of the loop. -/
inductive SkipReason where
  /-- Line 106: "invalid table entry". -/
  | invalidTableEntry
  /-- Line 115: "invalid sheet". -/
  | invalidSheet
  /-- Line 121: "incorrect frame data". -/
  | incorrectFrameData
  deriving DecidableEq, Repr

/-- How one iteration of the loop ends. -/
inductive Outcome where
  | skipped (reason : SkipReason)
  | emitted (image : Image)
  deriving DecidableEq, Repr

/-- The messages printed when `verbose` is set, with their arguments. -/
inductive LogLine where
  /-- Lines 97-98. -/
  | file (sprt_path : FsPath) (n_sprites : Nat)
  /-- Line 106. -/
  | skipEntry (frame : Nat)
  /-- Line 115. -/
  | skipSheet (frame sheet : Nat)
  /-- Line 121. -/
  | skipData (frame : Nat)
  /-- Line 131. -/
  | frame (frame x y w h bbX bbY bbW bbH sheet : Nat)
  /-- Line 132. -/
  | output (path : FsPath)
  deriving DecidableEq, Repr

/-- One iteration: its outcome and what it printed. -/
structure Step where
  outcome : Outcome
  log : List LogLine
  deriving DecidableEq, Repr

/-- Lines 86-91: the header of the table and the number of frames. -/
def setup (table sprt_info : Buffer) : Traced Setup := do
  let n_entries ← tableDword table 0
  let lowest_entry ← tableDword table DW
  let highest_entry ← tableDword table (wrap32 (DW + wrap32 (DW * n_entries)))
  let attrib_offset := wrap32 (DW * wrap32 (n_entries + 1))
  let n_sprites ← descDword sprt_info (13 * DW)
  pure ⟨n_entries, lowest_entry, highest_entry, attrib_offset, n_sprites⟩

/-- Byte offset of `sprites_offsets[i]` in the sprite description file. -/
def keyOffset (i : Nat) : Nat := 14 * DW + DW * i

/-- The condition of line 104; `or` stops at the first true operand. -/
def invalid_entry (sprt_info : Buffer) (s : Setup) (i : Nat) : Traced Bool := do
  let k ← descDword sprt_info (keyOffset i)
  if k > s.highest_entry then pure true else do
    let k ← descDword sprt_info (keyOffset i)
    if k < s.lowest_entry then pure true else do
      let k ← descDword sprt_info (keyOffset i)
      pure (decide (sub32 k s.lowest_entry % (ATT_LEN * ATT_SIZE) ≠ 0))

/-- Line 131: the fields printed for an emitted frame. -/
def frameLog (table : Buffer) (g i : Nat) (output : FsPath) : Traced (List LogLine) := do
  let x ← tableWord table (g + ATT_SIZE * 0)
  let y ← tableWord table (g + ATT_SIZE * 1)
  let w ← tableWord table (g + ATT_SIZE * 2)
  let h ← tableWord table (g + ATT_SIZE * 3)
  let bbX ← tableWord table (g + ATT_SIZE * 4)
  let bbY ← tableWord table (g + ATT_SIZE * 5)
  let bbW ← tableWord table (g + ATT_SIZE * 6)
  let bbH ← tableWord table (g + ATT_SIZE * 7)
  let sheet ← tableWord table (g + ATT_SIZE * 10)
  pure [.frame (i + 1) x y w h bbX bbY bbW bbH sheet, .output output]

/-- The body of the loop (lines 103-139) for the index `i`. -/
def iteration (table : Buffer) (sheets : List Sheet) (sprt_info : Buffer)
    (sprt_path out_dir_path : FsPath) (verbose : Bool) (s : Setup) (i : Nat) :
    Traced Step := do
  let invalid ← invalid_entry sprt_info s i
  if invalid then
    pure ⟨.skipped .invalidTableEntry, if verbose then [.skipEntry (i + 1)] else []⟩
  else do
    let k ← descDword sprt_info (keyOffset i)
    let global_offset := wrap32 (sub32 k s.lowest_entry + s.attrib_offset)
    let sheet ← tableWord table (global_offset + ATT_SIZE * 10)
    if sheet > sheets.length then
      if verbose then do
        let sheet ← tableWord table (global_offset + ATT_SIZE * 10)
        pure ⟨.skipped .invalidSheet, [.skipSheet (i + 1) sheet]⟩
      else pure ⟨.skipped .invalidSheet, []⟩
    else do
      let sheet ← tableWord table (global_offset + ATT_SIZE * 10)
      let Sheet ← sheetAt sheets sheet
      let correct ← __is_data_correct__ table global_offset Sheet
      if ¬ correct then
        pure ⟨.skipped .incorrectFrameData, if verbose then [.skipData (i + 1)] else []⟩
      else do
        let x ← tableWord table (global_offset + ATT_SIZE * 0)
        let y ← tableWord table (global_offset + ATT_SIZE * 1)
        let width ← tableWord table (global_offset + ATT_SIZE * 2)
        let height ← tableWord table (global_offset + ATT_SIZE * 3)
        let sheet ← tableWord table (global_offset + ATT_SIZE * 10)
        let Sheet ← sheetAt sheets sheet
        let _ ← cropSheet Sheet sheet x y width height
        let output : FsPath :=
          out_dir_path ++ [filename sprt_path,
            filename sprt_path ++ toString (i + 1) ++ ".png"]
        let log ← if verbose then frameLog table global_offset i output else pure []
        pure ⟨.emitted ⟨output, sheet, x, y, width, height⟩, log⟩

/-- The loop of line 101, from index `i` with `remaining` iterations to go.  It
ends at the first iteration that leaves a buffer or whose crop throws. -/
def loop (body : Nat → Traced Step) : (remaining : Nat) → (i : Nat) → List (Traced Step)
  | 0, _ => []
  | remaining + 1, i =>
    match (body i).result with
    | .fault _ => [body i]
    | .ok _ => body i :: loop body remaining (i + 1)

/-- A run of `split_sprite`: the reads before the loop, the heading printed
when `verbose` is set, and the iterations of the loop in order. -/
structure Run where
  setup : Traced Setup
  heading : List LogLine
  iterations : List (Traced Step)
  deriving DecidableEq, Repr

/-- Embedding of `split_sprite`, on the bytes of the description file. -/
def split_sprite (table : Buffer) (sheets : List Sheet) (sprt_info : Buffer)
    (sprt_path out_dir_path : FsPath) (verbose : Bool) : Run :=
  let st := setup table sprt_info
  match st.result with
  | .fault _ => ⟨st, [], []⟩
  | .ok s =>
    ⟨st, if verbose then [.file sprt_path s.n_sprites] else [],
      loop (iteration table sheets sprt_info sprt_path out_dir_path verbose s) s.n_sprites 0⟩

/-- The images a run writes, in order. -/
def Run.images (r : Run) : List Image :=
  r.iterations.filterMap fun t =>
    match t.result with
    | .ok ⟨.emitted image, _⟩ => some image
    | _ => none

/-! ## `main` (line 247) -/

/-- The size test a description file passes before `split_sprite` is called. -/
def driver_accepts (sprt_info : Buffer) : Bool := sprt_info.length > 14 * DW

/-! ## Notions used in the statements and proofs -/

/-- The outcome of an iteration, when it ran to its end. -/
def outcomeOf (t : Traced Step) : Option Outcome :=
  match t.result with
  | .ok st => some st.outcome
  | .fault _ => none

/-- Every access the computation attempted satisfies `P`. -/
@[irreducible] def Traced.Within {α : Type} (P : Access → Prop) (m : Traced α) : Prop :=
  ∀ a ∈ m.attempted, P a

/-- The access at which the computation faults, if it does, satisfies `P`. -/
@[irreducible] def Traced.FaultIs {α : Type} (P : Access → Prop) (m : Traced α) : Prop :=
  ∀ a, m.result = .fault a → P a

/-! ## Test inputs -/

/-- The table of Scenario A: one entry, lowest key 100, and the record
`(originX, originY, width, height) = (5, 5, 10, 10)` on sheet 0.  Its 30 bytes
are exactly `26 * 1 + 4`. -/
def tableA : Buffer :=
  [1, 0, 0, 0,  100, 0, 0, 0,
   5, 0,  5, 0,  10, 0,  10, 0,  0, 0,  0, 0,  0, 0,  0, 0,  0, 0,  0, 0,  0, 0]

/-- A description file of 60 bytes with one frame, of key `key`. -/
def descriptorOf (key : Fin 256) : Buffer :=
  List.replicate 52 0 ++ [1, 0, 0, 0, key, 0, 0, 0]

/-- A description file of 57 bytes that announces one frame. -/
def shortDescriptor : Buffer := List.replicate 52 0 ++ [1, 0, 0, 0, 100]

/-- A table file of four bytes whose count field holds `2 ^ 31`. -/
def wrappedCountFile : Buffer := [0, 0, 0, 128]

/-- A table of 212 bytes, `26 * 8 + 4`: eight entries, lowest key 0, the value
`2 ^ 32 - 1` at byte 36, and at bytes 10 to 31, inside the index of keys, the
words `(0, 0, 1, 1)` followed by zeros. -/
def tableWrappedOffset : Buffer :=
  [8, 0, 0, 0,  0, 0, 0, 0,  0, 0,  0, 0,  0, 0,  1, 0,  1, 0] ++ List.replicate 18 0 ++
    [255, 255, 255, 255] ++ List.replicate 172 0

/-- A description file of 60 bytes with one frame, of key `2 ^ 32 - 26`. -/
def highKeyDescriptor : Buffer := List.replicate 52 0 ++ [1, 0, 0, 0, 230, 255, 255, 255]

/-- The first 30 bytes of `wrappedHeaderTable`: the count `2 ^ 30 - 1`, zeros,
and the words 1 and 1 at bytes 26 and 28. -/
def wrappedHeaderStart : Buffer := [255, 255, 255, 63] ++ List.replicate 22 0 ++ [1, 0, 1, 0]

/-- A table of `26 * (2 ^ 30 - 1) + 4` bytes: `wrappedHeaderStart`, then zeros. -/
def wrappedHeaderTable : Buffer := wrappedHeaderStart ++ List.replicate 27917287372 0

/-- The table of Scenario A with the sheet index of the record set to 1. -/
def tableSheetOne : Buffer :=
  [1, 0, 0, 0,  100, 0, 0, 0,
   5, 0,  5, 0,  10, 0,  10, 0,  0, 0,  0, 0,  0, 0,  0, 0,  0, 0,  0, 0,  1, 0]

/-- One record `(originX, originY, width, height) = (5, 0, 6, 1)` on sheet 0,
addressed by the key 0. -/
def tableWide : Buffer :=
  [1, 0, 0, 0,  0, 0, 0, 0,
   5, 0,  0, 0,  6, 0,  1, 0,  0, 0,  0, 0,  0, 0,  0, 0,  0, 0,  0, 0,  0, 0]

/-- One record `(originX, originY, width, height) = (0, 0, 20, 20)` on sheet 0,
addressed by the key 0. -/
def tableFull : Buffer :=
  [1, 0, 0, 0,  0, 0, 0, 0,
   0, 0,  0, 0,  20, 0,  20, 0,  0, 0,  0, 0,  0, 0,  0, 0,  0, 0,  0, 0,  0, 0]

/-! ## Resolutions -/

/-- What an iteration decides: a skip, the sheet and rectangle of an emitted frame, or
the access that left its buffer or its sheet.  The file name and the log are left out. -/
inductive Resolution where
  | skipped (reason : SkipReason)
  | frame (sheetIndex x y width height : Nat)
  | fault (access : Access)
  deriving DecidableEq, Repr

/-- The resolution of an iteration. -/
def resolutionOf (t : Traced Step) : Resolution :=
  match t.result with
  | .fault a => .fault a
  | .ok ⟨.skipped reason, _⟩ => .skipped reason
  | .ok ⟨.emitted image, _⟩ =>
    .frame image.sheetIndex image.x image.y image.width image.height

/-- The file an emitted frame is written to (lines 127-128) under the ordinal
`ordinal`, the `i + 1` of the loop. -/
def outputPath (sprt_path out_dir_path : FsPath) (ordinal : Nat) : FsPath :=
  out_dir_path ++ [filename sprt_path, filename sprt_path ++ toString ordinal ++ ".png"]

/-- What lines 104-126 decide for a key `k`, as a function of the table, the sheets
and the header values `lowest_entry`, `highest_entry` and `attrib_offset`: the
tests of `iteration` in the same order, without the trace, the ordinal and the
log.  After a successful test of `__is_data_correct__` the four words of the
rectangle are read again (line 125); they are in the table then, so the last
alternative never arises.  The frame is emitted when its rectangle lies inside
the sheet; otherwise the crop of line 126 throws.  `iteration_resolution` proves
that `iteration` decides exactly this. -/
def resolve (table : Buffer) (sheets : List Sheet) (lowest highest attrib k : Nat) :
    Resolution :=
  if k > highest ∨ k < lowest ∨ sub32 k lowest % (ATT_LEN * ATT_SIZE) ≠ 0 then
    .skipped .invalidTableEntry
  else
    match readU16 table (wrap32 (sub32 k lowest + attrib) + 20) with
    | none => .fault (.table (wrap32 (sub32 k lowest + attrib) + 20) 2)
    | some sheet =>
      if sheet > sheets.length then .skipped .invalidSheet
      else
        match sheets[sheet]? with
        | none => .fault (.sheet sheet)
        | some Sheet =>
          match (__is_data_correct__ table (wrap32 (sub32 k lowest + attrib)) Sheet).result with
          | .fault a => .fault a
          | .ok false => .skipped .incorrectFrameData
          | .ok true =>
            match readU16 table (wrap32 (sub32 k lowest + attrib)),
              readU16 table (wrap32 (sub32 k lowest + attrib) + 2),
              readU16 table (wrap32 (sub32 k lowest + attrib) + 4),
              readU16 table (wrap32 (sub32 k lowest + attrib) + 6) with
            | some x, some y, some width, some height =>
              if x + width ≤ Sheet.cols ∧ y + height ≤ Sheet.rows then
                .frame sheet x y width height
              else .fault (.crop sheet x y width height)
            | _, _, _, _ => .fault (.table (wrap32 (sub32 k lowest + attrib)) 2)

/-- The outcome that goes with a resolution, given the file of the frame. -/
def outcomeFrom (output : FsPath) : Resolution → Option Outcome
  | .skipped reason => some (.skipped reason)
  | .frame sheetIndex x y width height =>
    some (.emitted ⟨output, sheetIndex, x, y, width, height⟩)
  | .fault _ => none

/-- The image of an outcome, when it is an emitted frame. -/
def imageOf : Option Outcome → Option Image
  | some (.emitted image) => some image
  | _ => none

/-- The reason of an outcome, when it is a skip. -/
def reasonOf : Option Outcome → Option SkipReason
  | some (.skipped reason) => some reason
  | _ => none

/-- The skips of a run, in order. -/
def Run.skipped (r : Run) : List SkipReason :=
  r.iterations.filterMap fun t =>
    match t.result with
    | .ok ⟨.skipped reason, _⟩ => some reason
    | _ => none

/-! ## More test inputs -/

/-- A description file of 64 bytes with two frames, of keys `key0` and `key1`. -/
def descriptorTwo (key0 key1 : Fin 256) : Buffer :=
  List.replicate 52 0 ++ [2, 0, 0, 0, key0, 0, 0, 0, key1, 0, 0, 0]

/-- A table of 30 bytes with one entry, lowest key 0 and the record `(0, 0, 0, 0)` on
sheet 0; the key 0 addresses it. -/
def tableZeroRect : Buffer := [1, 0, 0, 0] ++ List.replicate 26 0

/-- A table file of four bytes: no entry. -/
def emptyTable : Buffer := [0, 0, 0, 0]

/-! ## Reading buffers -/

theorem readU16_lt {b : Buffer} {i v : Nat} (h : readU16 b i = some v) : v < 2 ^ 16 := by
  simp only [readU16, Option.bind_eq_bind, Option.bind_eq_some, Option.pure_def, Option.some.injEq] at h
  obtain ⟨b0, -, b1, -, rfl⟩ := h
  omega

theorem readU32_lt {b : Buffer} {i v : Nat} (h : readU32 b i = some v) : v < 2 ^ 32 := by
  simp only [readU32, Option.bind_eq_bind, Option.bind_eq_some, Option.pure_def, Option.some.injEq] at h
  obtain ⟨b0, -, b1, -, b2, -, b3, -, rfl⟩ := h
  omega

theorem readU32_isSome_iff (b : Buffer) (i : Nat) : (readU32 b i).isSome ↔ i + 4 ≤ b.length := by
  simp only [readU32, Option.bind_eq_bind, Option.pure_def]
  constructor
  · intro h
    rcases h0 : b[i + 3]? with _ | x
    · simp [h0] at h
    · have := List.getElem?_eq_some.mp h0
      obtain ⟨hlt, -⟩ := this
      omega
  · intro h
    have h0 : i < b.length := by omega
    have h1 : i + 1 < b.length := by omega
    have h2 : i + 2 < b.length := by omega
    have h3 : i + 3 < b.length := by omega
    simp [List.getElem?_eq_getElem, h0, h1, h2, h3]

theorem readU16_isSome_iff (b : Buffer) (i : Nat) : (readU16 b i).isSome ↔ i + 2 ≤ b.length := by
  simp only [readU16, Option.bind_eq_bind, Option.pure_def]
  constructor
  · intro h
    rcases h0 : b[i + 1]? with _ | x
    · simp [h0] at h
    · obtain ⟨hlt, -⟩ := List.getElem?_eq_some.mp h0
      omega
  · intro h
    have h0 : i < b.length := by omega
    have h1 : i + 1 < b.length := by omega
    simp [List.getElem?_eq_getElem, h0, h1]

theorem readU16_below (b : Buffer) (hi j : Nat) (hhi : j ≤ hi)
    (h : (readU16 b hi).isSome) : ∃ v, readU16 b j = some v := by
  have h1 := (readU16_isSome_iff b hi).mp h
  have h2 : (readU16 b j).isSome := (readU16_isSome_iff b j).mpr (by omega)
  exact Option.isSome_iff_exists.mp h2

theorem readU32_append_left (pre suf : Buffer) (i : Nat) (h : i + 4 ≤ pre.length) :
    readU32 (pre ++ suf) i = readU32 pre i := by
  unfold readU32
  rw [List.getElem?_append_left (by omega), List.getElem?_append_left (by omega),
    List.getElem?_append_left (by omega), List.getElem?_append_left (by omega)]

theorem readU16_append_left (pre suf : Buffer) (i : Nat) (h : i + 2 ≤ pre.length) :
    readU16 (pre ++ suf) i = readU16 pre i := by
  unfold readU16
  rw [List.getElem?_append_left (by omega), List.getElem?_append_left (by omega)]

theorem getElem?_append_replicate (pre : Buffer) (count i : Nat) (z : Fin 256)
    (h1 : pre.length ≤ i) (h2 : i < pre.length + count) :
    (pre ++ List.replicate count z)[i]? = some z := by
  rw [List.getElem?_append_right h1, List.getElem?_replicate, if_pos (by omega)]

theorem readU32_append_replicate (pre : Buffer) (count i : Nat)
    (h1 : pre.length ≤ i) (h2 : i + 4 ≤ pre.length + count) :
    readU32 (pre ++ List.replicate count 0) i = some 0 := by
  unfold readU32
  rw [getElem?_append_replicate pre count i 0 h1 (by omega),
    getElem?_append_replicate pre count (i + 1) 0 (by omega) (by omega),
    getElem?_append_replicate pre count (i + 2) 0 (by omega) (by omega),
    getElem?_append_replicate pre count (i + 3) 0 (by omega) (by omega)]
  rfl

theorem readU16_append_replicate (pre : Buffer) (count i : Nat)
    (h1 : pre.length ≤ i) (h2 : i + 2 ≤ pre.length + count) :
    readU16 (pre ++ List.replicate count 0) i = some 0 := by
  unfold readU16
  rw [getElem?_append_replicate pre count i 0 h1 (by omega),
    getElem?_append_replicate pre count (i + 1) 0 (by omega) (by omega)]
  rfl

theorem keyOffset_eq (i : Nat) : keyOffset i = 56 + 4 * i := by
  simp [keyOffset, DW]

theorem sub32_of_le {a b : Nat} (hb : b ≤ a) (ha : a < 2 ^ 32) : sub32 a b = a - b := by
  unfold sub32
  omega

/-- Below `2 ^ 32` the size compared on line 64 is the size the format asks for. -/
theorem declaredSize_eq (n : Nat) (h : 26 * n + 4 < 2 ^ 32) :
    declaredSize n = n * 22 + 4 * (n + 1) := by
  unfold declaredSize wrap32
  simp only [DW, ATT_LEN, ATT_SIZE]
  omega

/-- The test of `load_table`, in the arithmetic of the source. -/
theorem load_table_accepted_iff (file : Buffer) (n : Nat) (h : readU32 file 0 = some n) :
    load_table file = .accepted file ↔ declaredSize n ≤ file.length := by
  unfold load_table
  simp only [h]
  split
  · constructor
    · intro h'; cases h'
    · intro h'; omega
  · constructor
    · intro _; omega
    · intro _; rfl

/-! ## Traced computations -/

theorem bind_def {α β : Type} (m : Traced α) (f : α → Traced β) : (m >>= f) = m.bind f := rfl

theorem pure_def {α : Type} (a : α) : (pure a : Traced α) = Traced.pure a := rfl

theorem Traced.bind_ok_iff {α β : Type} (m : Traced α) (f : α → Traced β) (b : β) :
    (m.bind f).result = .ok b ↔ ∃ a, m.result = .ok a ∧ (f a).result = .ok b := by
  unfold Traced.bind
  rcases hm : m.result with a | e
  · simp
  · simp

theorem Traced.pure_ok_iff {α : Type} (a b : α) :
    (Traced.pure a).result = .ok b ↔ a = b := by
  simp [Traced.pure]

theorem tableWord_ok_iff (table : Buffer) (offset v : Nat) :
    (tableWord table offset).result = .ok v ↔ readU16 table offset = some v := by
  unfold tableWord
  rcases readU16 table offset with _ | w <;> simp

theorem tableDword_ok_iff (table : Buffer) (offset v : Nat) :
    (tableDword table offset).result = .ok v ↔ readU32 table offset = some v := by
  unfold tableDword
  rcases readU32 table offset with _ | w <;> simp

theorem descDword_ok_iff (sprt_info : Buffer) (offset v : Nat) :
    (descDword sprt_info offset).result = .ok v ↔ readU32 sprt_info offset = some v := by
  unfold descDword
  rcases readU32 sprt_info offset with _ | w <;> simp

theorem sheetAt_ok_iff (sheets : List Sheet) (index : Nat) (sheet : Sheet) :
    (sheetAt sheets index).result = .ok sheet ↔ sheets[index]? = some sheet := by
  unfold sheetAt
  rcases sheets[index]? with _ | w <;> simp

theorem cropSheet_ok_iff (sheet : Sheet) (index x y width height : Nat) (u : Unit) :
    (cropSheet sheet index x y width height).result = .ok u ↔
      x + width ≤ sheet.cols ∧ y + height ≤ sheet.rows := by
  unfold cropSheet
  split <;> simp [*]

theorem Traced.bind_reads {α β : Type} (m : Traced α) (f : α → Traced β) :
    ∃ rest, (m.bind f).reads = m.reads ++ rest := by
  unfold Traced.bind
  rcases m.result with v | a
  · exact ⟨(f v).reads, rfl⟩
  · exact ⟨[], by simp⟩

theorem Traced.bind_attempted_ok {α β : Type} (m : Traced α) (f : α → Traced β) (v : α)
    (h : m.result = .ok v) : (m.bind f).attempted = m.reads ++ (f v).attempted := by
  unfold Traced.bind Traced.attempted
  simp only [h]
  rcases (f v).result with b | a <;> simp

theorem Traced.bind_attempted_fault {α β : Type} (m : Traced α) (f : α → Traced β) (a : Access)
    (h : m.result = .fault a) : (m.bind f).attempted = m.attempted := by
  unfold Traced.bind Traced.attempted
  simp only [h]

theorem Traced.mem_bind_attempted {α β : Type} (m : Traced α) (f : α → Traced β) (a : Access)
    (h : a ∈ (m.bind f).attempted) :
    a ∈ m.attempted ∨ ∃ v, m.result = .ok v ∧ a ∈ (f v).attempted := by
  rcases hm : m.result with v | e
  · rw [Traced.bind_attempted_ok m f v hm, List.mem_append] at h
    rcases h with h | h
    · left
      simpa [Traced.attempted, hm] using h
    · exact Or.inr ⟨v, rfl, h⟩
  · rw [Traced.bind_attempted_fault m f e hm] at h
    exact Or.inl h

theorem tableWord_bind_attempted {β : Type} (table : Buffer) (offset : Nat)
    (f : Nat → Traced β) :
    ∃ rest, ((tableWord table offset).bind f).attempted = .table offset 2 :: rest := by
  rcases h : readU16 table offset with _ | v
  · refine ⟨[], ?_⟩
    rw [Traced.bind_attempted_fault _ f (.table offset 2) (by simp [tableWord, h])]
    simp [Traced.attempted, tableWord, h]
  · refine ⟨(f v).attempted, ?_⟩
    rw [Traced.bind_attempted_ok _ f v (by simp [tableWord, h])]
    simp [tableWord, h]

theorem Traced.within_pure {α : Type} (P : Access → Prop) (v : α) :
    Traced.Within P (pure v : Traced α) := by
  unfold Traced.Within
  intro a ha
  simp [pure_def, Traced.pure, Traced.attempted] at ha

theorem Traced.within_bind {α β : Type} (P : Access → Prop) (m : Traced α) (f : α → Traced β)
    (hm : Traced.Within P m) (hf : ∀ v, Traced.Within P (f v)) :
    Traced.Within P (m >>= f) := by
  unfold Traced.Within at hm hf ⊢
  intro a ha
  rcases Traced.mem_bind_attempted m f a ha with h | ⟨v, -, h⟩
  · exact hm a h
  · exact hf v a h

theorem Traced.within_ite {α : Type} (P : Access → Prop) (c : Prop) [Decidable c]
    (m n : Traced α) (hm : Traced.Within P m) (hn : Traced.Within P n) :
    Traced.Within P (if c then m else n) := by
  split
  · exact hm
  · exact hn

theorem within_tableWord (P : Access → Prop) (table : Buffer) (offset : Nat)
    (hP : P (.table offset 2)) : Traced.Within P (tableWord table offset) := by
  unfold Traced.Within
  intro a ha
  rcases h : readU16 table offset with _ | v <;>
    simp [tableWord, Traced.attempted, h] at ha <;> rw [ha] <;> exact hP

theorem within_descDword (P : Access → Prop) (sprt_info : Buffer) (offset : Nat)
    (hP : P (.descriptor offset 4)) : Traced.Within P (descDword sprt_info offset) := by
  unfold Traced.Within
  intro a ha
  rcases h : readU32 sprt_info offset with _ | v <;>
    simp [descDword, Traced.attempted, h] at ha <;> rw [ha] <;> exact hP

theorem within_sheetAt (P : Access → Prop) (sheets : List Sheet) (index : Nat)
    (hP : P (.sheet index)) : Traced.Within P (sheetAt sheets index) := by
  unfold Traced.Within
  intro a ha
  rcases h : sheets[index]? with _ | v <;>
    simp [sheetAt, Traced.attempted, h] at ha <;> rw [ha] <;> exact hP

theorem within_cropSheet (P : Access → Prop) (sheet : Sheet) (index x y width height : Nat)
    (hP : P (.crop index x y width height)) :
    Traced.Within P (cropSheet sheet index x y width height) := by
  unfold Traced.Within
  intro a ha
  by_cases h : x + width ≤ sheet.cols ∧ y + height ≤ sheet.rows <;>
    simp [cropSheet, Traced.attempted, h] at ha <;> rw [ha] <;> exact hP

theorem Traced.faultIs_pure {α : Type} (P : Access → Prop) (v : α) :
    Traced.FaultIs P (pure v : Traced α) := by
  unfold Traced.FaultIs
  intro a ha
  simp [pure_def, Traced.pure] at ha

theorem Traced.faultIs_bind {α β : Type} (P : Access → Prop) (m : Traced α) (f : α → Traced β)
    (hm : Traced.FaultIs P m) (hf : ∀ v, Traced.FaultIs P (f v)) :
    Traced.FaultIs P (m >>= f) := by
  unfold Traced.FaultIs at hm hf ⊢
  intro a ha
  rw [bind_def] at ha
  unfold Traced.bind at ha
  rcases hr : m.result with v | e
  · simp only [hr] at ha
    exact hf v a ha
  · simp only [hr, Res.fault.injEq] at ha
    subst ha
    exact hm e hr

theorem Traced.faultIs_ite {α : Type} (P : Access → Prop) (c : Prop) [Decidable c]
    (m n : Traced α) (hm : Traced.FaultIs P m) (hn : Traced.FaultIs P n) :
    Traced.FaultIs P (if c then m else n) := by
  split
  · exact hm
  · exact hn

theorem faultIs_tableWord (P : Access → Prop) (table : Buffer) (offset : Nat)
    (hP : P (.table offset 2)) : Traced.FaultIs P (tableWord table offset) := by
  unfold Traced.FaultIs
  intro a ha
  rcases h : readU16 table offset with _ | v <;> simp [tableWord, h] at ha
  rw [← ha]; exact hP

theorem faultIs_sheetAt (P : Access → Prop) (sheets : List Sheet) (index : Nat)
    (hP : P (.sheet index)) : Traced.FaultIs P (sheetAt sheets index) := by
  unfold Traced.FaultIs
  intro a ha
  rcases h : sheets[index]? with _ | v <;> simp [sheetAt, h] at ha
  rw [← ha]; exact hP

theorem faultIs_cropSheet (P : Access → Prop) (sheet : Sheet) (index x y width height : Nat)
    (hP : P (.crop index x y width height)) :
    Traced.FaultIs P (cropSheet sheet index x y width height) := by
  unfold Traced.FaultIs
  intro a ha
  by_cases h : x + width ≤ sheet.cols ∧ y + height ≤ sheet.rows <;>
    simp [cropSheet, h] at ha
  rw [← ha]; exact hP

theorem faultIs_descDword_of_some (P : Access → Prop) (sprt_info : Buffer) (offset v : Nat)
    (h : readU32 sprt_info offset = some v) : Traced.FaultIs P (descDword sprt_info offset) := by
  unfold Traced.FaultIs
  intro a ha
  simp [descDword, h] at ha

/-! ## The tests of one iteration -/

/-- What a successful test of `__is_data_correct__` has read and compared. -/
theorem is_data_correct_true_iff (table : Buffer) (g : Nat) (sheet : Sheet) :
    (__is_data_correct__ table g sheet).result = .ok true ↔
      sheet.empty = false ∧ ∃ d0 d1 d2 d3,
        readU16 table g = some d0 ∧ readU16 table (g + 2) = some d1 ∧
        readU16 table (g + 4) = some d2 ∧ readU16 table (g + 6) = some d3 ∧
        d0 < sheet.rows ∧ d1 < sheet.cols ∧ d2 + d1 < sheet.cols ∧ d3 + d0 < sheet.rows := by
  unfold __is_data_correct__
  simp only [ATT_SIZE, Nat.mul_zero, Nat.add_zero, Nat.mul_one, Nat.reduceMul]
  by_cases he : sheet.empty = true
  · simp [he, pure_def, Traced.pure]
  · simp only [he, Bool.false_eq_true, if_false, bind_def, Traced.bind_ok_iff, tableWord_ok_iff]
    constructor
    · rintro ⟨d0, h0, h⟩
      by_cases c0 : d0 < sheet.rows
      · simp only [c0, not_true_eq_false, if_false, bind_def, Traced.bind_ok_iff,
          tableWord_ok_iff] at h
        obtain ⟨d1, h1, h⟩ := h
        by_cases c1 : d1 < sheet.cols
        · simp only [c1, not_true_eq_false, if_false, bind_def, Traced.bind_ok_iff,
            tableWord_ok_iff] at h
          obtain ⟨d2, h2, d1', h1', h⟩ := h
          obtain rfl : d1 = d1' := by rw [h1] at h1'; exact Option.some.inj h1'
          by_cases c2 : d2 + d1 < sheet.cols
          · simp only [c2, not_true_eq_false, if_false, bind_def, Traced.bind_ok_iff,
              tableWord_ok_iff, pure_def, Traced.pure_ok_iff, decide_eq_true_eq] at h
            obtain ⟨d3, h3, d0', h0', h⟩ := h
            obtain rfl : d0 = d0' := by rw [h0] at h0'; exact Option.some.inj h0'
            exact ⟨trivial, d0, d1, d2, d3, h0, h1, h2, h3, c0, c1, c2, h⟩
          · simp [c2, pure_def, Traced.pure] at h
        · simp [c1, pure_def, Traced.pure] at h
      · simp [c0, pure_def, Traced.pure] at h
    · rintro ⟨-, d0, d1, d2, d3, h0, h1, h2, h3, c0, c1, c2, c3⟩
      refine ⟨d0, h0, ?_⟩
      simp only [c0, not_true_eq_false, if_false, bind_def, Traced.bind_ok_iff, tableWord_ok_iff]
      refine ⟨d1, h1, ?_⟩
      simp only [c1, not_true_eq_false, if_false, bind_def, Traced.bind_ok_iff, tableWord_ok_iff]
      refine ⟨d2, h2, d1, h1, ?_⟩
      simp only [c2, not_true_eq_false, if_false, bind_def, Traced.bind_ok_iff, tableWord_ok_iff]
      exact ⟨d3, h3, d0, h0, by simp [pure_def, Traced.pure, c3]⟩

/-- The condition of line 104, once the key is known. -/
theorem invalid_entry_result (sprt_info : Buffer) (s : Setup) (i k : Nat)
    (hk : readU32 sprt_info (keyOffset i) = some k) :
    (invalid_entry sprt_info s i).result =
        .ok (decide (k > s.highest_entry ∨ k < s.lowest_entry ∨
          sub32 k s.lowest_entry % (ATT_LEN * ATT_SIZE) ≠ 0)) ∧
      ∀ a ∈ (invalid_entry sprt_info s i).reads, a = .descriptor (keyOffset i) 4 := by
  simp only [invalid_entry, bind_def, pure_def, descDword, hk, Traced.bind, Traced.pure]
  by_cases h1 : k > s.highest_entry
  · simp [h1]
  · by_cases h2 : k < s.lowest_entry
    · simp [h1, h2]
    · simp [h1, h2]

theorem invalid_entry_ok (sprt_info : Buffer) (s : Setup) (i k : Nat) (b : Bool)
    (hk : readU32 sprt_info (keyOffset i) = some k)
    (h : (invalid_entry sprt_info s i).result = .ok b) :
    b = decide (k > s.highest_entry ∨ k < s.lowest_entry ∨
          sub32 k s.lowest_entry % (ATT_LEN * ATT_SIZE) ≠ 0) := by
  rw [(invalid_entry_result sprt_info s i k hk).1] at h
  exact (Res.ok.inj h).symm

/-- The three key reads of line 104 when the key passes the test. -/
theorem invalid_entry_reads (sprt_info : Buffer) (s : Setup) (i k : Nat)
    (hk : readU32 sprt_info (keyOffset i) = some k)
    (hgood : s.lowest_entry ≤ k ∧ k ≤ s.highest_entry) :
    (invalid_entry sprt_info s i).reads =
      [.descriptor (keyOffset i) 4, .descriptor (keyOffset i) 4, .descriptor (keyOffset i) 4] := by
  have h1 : ¬ k > s.highest_entry := by omega
  have h2 : ¬ k < s.lowest_entry := by omega
  simp [invalid_entry, bind_def, pure_def, descDword, hk, Traced.bind, Traced.pure, h1, h2]

theorem iteration_skip_entry (table : Buffer) (sheets : List Sheet) (sprt_info : Buffer)
    (sprt_path out_dir_path : FsPath) (verbose : Bool) (s : Setup) (i k : Nat)
    (hk : readU32 sprt_info (keyOffset i) = some k)
    (hbad : k > s.highest_entry ∨ k < s.lowest_entry ∨
      sub32 k s.lowest_entry % (ATT_LEN * ATT_SIZE) ≠ 0) :
    (iteration table sheets sprt_info sprt_path out_dir_path verbose s i).result =
        .ok ⟨.skipped .invalidTableEntry, if verbose then [.skipEntry (i + 1)] else []⟩ ∧
      ∀ a ∈ (iteration table sheets sprt_info sprt_path out_dir_path verbose s i).reads,
        a = .descriptor (keyOffset i) 4 := by
  obtain ⟨hr, hreads⟩ := invalid_entry_result sprt_info s i k hk
  rw [decide_eq_true hbad] at hr
  simp only [iteration, bind_def, Traced.bind, hr, pure_def, Traced.pure]
  simpa using hreads

theorem iteration_emitted_inv (table : Buffer) (sheets : List Sheet) (sprt_info : Buffer)
    (sprt_path out_dir_path : FsPath) (verbose : Bool) (s : Setup) (i k : Nat)
    (st : Step) (image : Image)
    (hk : readU32 sprt_info (keyOffset i) = some k)
    (h : (iteration table sheets sprt_info sprt_path out_dir_path verbose s i).result = .ok st)
    (hst : st.outcome = .emitted image) :
    (s.lowest_entry ≤ k ∧ k ≤ s.highest_entry ∧
        sub32 k s.lowest_entry % (ATT_LEN * ATT_SIZE) = 0) ∧
      (readU16 table (wrap32 (sub32 k s.lowest_entry + s.attrib_offset)) = some image.x ∧
        readU16 table (wrap32 (sub32 k s.lowest_entry + s.attrib_offset) + 2) = some image.y ∧
        readU16 table (wrap32 (sub32 k s.lowest_entry + s.attrib_offset) + 4)
          = some image.width ∧
        readU16 table (wrap32 (sub32 k s.lowest_entry + s.attrib_offset) + 6)
          = some image.height ∧
        readU16 table (wrap32 (sub32 k s.lowest_entry + s.attrib_offset) + 20)
          = some image.sheetIndex) ∧
      (∃ sheet, sheets[image.sheetIndex]? = some sheet ∧ sheet.empty = false ∧
        image.x < sheet.rows ∧ image.y < sheet.cols ∧
        image.width + image.y < sheet.cols ∧ image.height + image.x < sheet.rows ∧
        image.x + image.width ≤ sheet.cols ∧ image.y + image.height ≤ sheet.rows) ∧
      image.output = out_dir_path ++ [filename sprt_path,
        filename sprt_path ++ toString (i + 1) ++ ".png"] := by
  generalize hg : wrap32 (sub32 k s.lowest_entry + s.attrib_offset) = g
  unfold iteration at h
  simp only [bind_def, Traced.bind_ok_iff] at h
  obtain ⟨invalid, hinv, h⟩ := h
  have hb := invalid_entry_ok sprt_info s i k invalid hk hinv
  cases invalid with
  | true =>
    simp only [if_true, pure_def, Traced.pure_ok_iff] at h
    subst h
    simp at hst
  | false =>
    have hgood : s.lowest_entry ≤ k ∧ k ≤ s.highest_entry ∧
        sub32 k s.lowest_entry % (ATT_LEN * ATT_SIZE) = 0 := by
      have := of_decide_eq_false hb.symm
      simp only [not_or, not_lt, ne_eq, not_not] at this
      omega
    refine ⟨hgood, ?_⟩
    simp only [Bool.false_eq_true, if_false, bind_def, Traced.bind_ok_iff, descDword_ok_iff,
      tableWord_ok_iff] at h
    obtain ⟨k', hk', si, h10, h⟩ := h
    obtain rfl : k = k' := by rw [hk] at hk'; exact Option.some.inj hk'
    rw [hg] at h10 h
    simp only [ATT_SIZE, Nat.reduceMul, Nat.add_zero] at h10 h
    by_cases c : si > sheets.length
    · rw [if_pos c] at h
      cases verbose with
      | true =>
        simp only [if_true, bind_def, Traced.bind_ok_iff, pure_def, Traced.pure_ok_iff] at h
        obtain ⟨_, _, h⟩ := h
        subst h
        simp at hst
      | false =>
        simp only [Bool.false_eq_true, if_false, pure_def, Traced.pure_ok_iff] at h
        subst h
        simp at hst
    · rw [if_neg c] at h
      simp only [bind_def, Traced.bind_ok_iff, tableWord_ok_iff, sheetAt_ok_iff] at h
      obtain ⟨si', h10', sheet, hsheet, correct, hcorrect, h⟩ := h
      obtain rfl : si = si' := by rw [h10] at h10'; exact Option.some.inj h10'
      cases correct with
      | false =>
        simp only [Bool.false_eq_true, not_false_eq_true, if_true, pure_def,
          Traced.pure_ok_iff] at h
        subst h
        simp at hst
      | true =>
        simp only [not_true_eq_false, if_false, bind_def, Traced.bind_ok_iff, tableWord_ok_iff,
          sheetAt_ok_iff, cropSheet_ok_iff, pure_def, Traced.pure_ok_iff] at h
        obtain ⟨x, hx, y, hy, w, hw, ht, hht, si', h10', sheet', hsheet', _, hcrop, h⟩ := h
        obtain rfl : si = si' := by rw [h10] at h10'; exact Option.some.inj h10'
        obtain rfl : sheet = sheet' := by rw [hsheet] at hsheet'; exact Option.some.inj hsheet'
        have hout : st.outcome = .emitted ⟨out_dir_path ++ [filename sprt_path,
            filename sprt_path ++ toString (i + 1) ++ ".png"], si, x, y, w, ht⟩ := by
          cases verbose with
          | true =>
            simp only [if_true, Traced.bind_ok_iff, Traced.pure_ok_iff] at h
            obtain ⟨_, _, h⟩ := h
            rw [← h]
          | false =>
            simp only [Bool.false_eq_true, if_false, Traced.bind_ok_iff, Traced.pure_ok_iff] at h
            obtain ⟨_, _, h⟩ := h
            rw [← h]
        rw [hout] at hst
        simp only [Outcome.emitted.injEq] at hst
        subst hst
        obtain ⟨hempty, d0, d1, d2, d3, h0, h1, h2, h3, c0, c1, c2, c3⟩ :=
          (is_data_correct_true_iff table g sheet).mp hcorrect
        rw [hx] at h0; rw [hy] at h1; rw [hw] at h2; rw [hht] at h3
        obtain rfl := Option.some.inj h0
        obtain rfl := Option.some.inj h1
        obtain rfl := Option.some.inj h2
        obtain rfl := Option.some.inj h3
        exact ⟨⟨hx, hy, hw, hht, h10⟩,
          ⟨sheet, hsheet, hempty, c0, c1, c2, c3, hcrop.1, hcrop.2⟩, rfl⟩

/-- The message of line 131 is printed without leaving the table when the
sheet index of the record has been read. -/
theorem frameLog_ok (table : Buffer) (g i : Nat) (output : FsPath) (si : Nat)
    (h10 : readU16 table (g + 20) = some si) :
    ∃ log, (frameLog table g i output).result = .ok log := by
  have hs : (readU16 table (g + 20)).isSome := by simp [h10]
  obtain ⟨x, hx⟩ := readU16_below table (g + 20) g (by omega) hs
  obtain ⟨y, hy⟩ := readU16_below table (g + 20) (g + 2) (by omega) hs
  obtain ⟨w, hw⟩ := readU16_below table (g + 20) (g + 4) (by omega) hs
  obtain ⟨h, hh⟩ := readU16_below table (g + 20) (g + 6) (by omega) hs
  obtain ⟨a, ha⟩ := readU16_below table (g + 20) (g + 8) (by omega) hs
  obtain ⟨b, hb⟩ := readU16_below table (g + 20) (g + 10) (by omega) hs
  obtain ⟨c, hc⟩ := readU16_below table (g + 20) (g + 12) (by omega) hs
  obtain ⟨d, hd⟩ := readU16_below table (g + 20) (g + 14) (by omega) hs
  refine ⟨[.frame (i + 1) x y w h a b c d si, .output output], ?_⟩
  unfold frameLog
  simp only [ATT_SIZE, Nat.reduceMul, Nat.add_zero, bind_def, Traced.bind_ok_iff,
    tableWord_ok_iff, pure_def, Traced.pure_ok_iff]
  exact ⟨x, hx, y, hy, w, hw, h, hh, a, ha, b, hb, c, hc, d, hd, si, h10, rfl⟩

/-- An iteration whose key passes line 104 and whose record passes the two
tests that follow emits the record's rectangle, when the rectangle lies inside
the sheet. -/
theorem iteration_emits (table : Buffer) (sheets : List Sheet) (sprt_info : Buffer)
    (sprt_path out_dir_path : FsPath) (verbose : Bool) (s : Setup) (i k : Nat)
    (x y w h si : Nat) (sheet : Sheet)
    (hk : readU32 sprt_info (keyOffset i) = some k)
    (hgood : s.lowest_entry ≤ k ∧ k ≤ s.highest_entry ∧
        sub32 k s.lowest_entry % (ATT_LEN * ATT_SIZE) = 0)
    (hx : readU16 table (wrap32 (sub32 k s.lowest_entry + s.attrib_offset)) = some x)
    (hy : readU16 table (wrap32 (sub32 k s.lowest_entry + s.attrib_offset) + 2) = some y)
    (hw : readU16 table (wrap32 (sub32 k s.lowest_entry + s.attrib_offset) + 4) = some w)
    (hh : readU16 table (wrap32 (sub32 k s.lowest_entry + s.attrib_offset) + 6) = some h)
    (h10 : readU16 table (wrap32 (sub32 k s.lowest_entry + s.attrib_offset) + 20) = some si)
    (hsheet : sheets[si]? = some sheet) (hempty : sheet.empty = false)
    (c0 : x < sheet.rows) (c1 : y < sheet.cols) (c2 : w + y < sheet.cols)
    (c3 : h + x < sheet.rows) (c4 : x + w ≤ sheet.cols) (c5 : y + h ≤ sheet.rows) :
    ∃ log, (iteration table sheets sprt_info sprt_path out_dir_path verbose s i).result =
      .ok ⟨.emitted ⟨out_dir_path ++ [filename sprt_path,
        filename sprt_path ++ toString (i + 1) ++ ".png"], si, x, y, w, h⟩, log⟩ := by
  generalize hg : wrap32 (sub32 k s.lowest_entry + s.attrib_offset) = g at hx hy hw hh h10
  have hinv : (invalid_entry sprt_info s i).result = .ok false := by
    rw [(invalid_entry_result sprt_info s i k hk).1]
    congr 1
    apply decide_eq_false
    omega
  have hlen : ¬ si > sheets.length := by
    obtain ⟨hlt, -⟩ := List.getElem?_eq_some.mp hsheet
    omega
  have hcorrect : (__is_data_correct__ table g sheet).result = .ok true :=
    (is_data_correct_true_iff table g sheet).mpr
      ⟨hempty, x, y, w, h, hx, hy, hw, hh, c0, c1, c2, c3⟩
  obtain ⟨flog, hflog⟩ := frameLog_ok table g i (out_dir_path ++ [filename sprt_path,
        filename sprt_path ++ toString (i + 1) ++ ".png"]) si h10
  refine ⟨if verbose then flog else [], ?_⟩
  unfold iteration
  simp only [bind_def, Traced.bind_ok_iff]
  refine ⟨false, hinv, ?_⟩
  simp only [Bool.false_eq_true, if_false, bind_def, Traced.bind_ok_iff, descDword_ok_iff,
    tableWord_ok_iff]
  refine ⟨k, hk, si, by simpa [ATT_SIZE, hg] using h10, ?_⟩
  rw [if_neg hlen]
  simp only [bind_def, Traced.bind_ok_iff, tableWord_ok_iff, sheetAt_ok_iff, hg, ATT_SIZE,
    Nat.reduceMul, Nat.add_zero]
  refine ⟨si, h10, sheet, hsheet, true, hcorrect, ?_⟩
  simp only [not_true_eq_false, if_false, bind_def, Traced.bind_ok_iff, tableWord_ok_iff,
    sheetAt_ok_iff, cropSheet_ok_iff]
  refine ⟨x, hx, y, hy, w, hw, h, hh, si, h10, sheet, hsheet, (), ⟨c4, c5⟩, ?_⟩
  cases verbose with
  | true =>
    simp only [if_true, Traced.bind_ok_iff, pure_def, Traced.pure_ok_iff]
    exact ⟨flog, hflog, rfl⟩
  | false =>
    simp only [Bool.false_eq_true, if_false, Traced.bind_ok_iff, pure_def, Traced.pure_ok_iff]
    exact ⟨[], rfl, rfl⟩

/-- A key that passes line 104 leads to the read of `data[10]` (line 113),
the first access to the record. -/
theorem iteration_fetches (table : Buffer) (sheets : List Sheet) (sprt_info : Buffer)
    (sprt_path out_dir_path : FsPath) (verbose : Bool) (s : Setup) (i k : Nat)
    (hk : readU32 sprt_info (keyOffset i) = some k)
    (hgood : s.lowest_entry ≤ k ∧ k ≤ s.highest_entry ∧
        sub32 k s.lowest_entry % (ATT_LEN * ATT_SIZE) = 0) :
    ∃ rest, (iteration table sheets sprt_info sprt_path out_dir_path verbose s i).attempted =
      [.descriptor (keyOffset i) 4, .descriptor (keyOffset i) 4, .descriptor (keyOffset i) 4,
        .descriptor (keyOffset i) 4,
        .table (wrap32 (sub32 k s.lowest_entry + s.attrib_offset) + 20) 2] ++ rest := by
  have hinv : (invalid_entry sprt_info s i).result = .ok false := by
    rw [(invalid_entry_result sprt_info s i k hk).1]
    congr 1
    apply decide_eq_false
    omega
  have hreads := invalid_entry_reads sprt_info s i k hk ⟨hgood.1, hgood.2.1⟩
  have hd : (descDword sprt_info (keyOffset i)).result = .ok k := by simp [descDword, hk]
  have hdr : (descDword sprt_info (keyOffset i)).reads = [.descriptor (keyOffset i) 4] := by
    simp [descDword, hk]
  unfold iteration
  simp only [bind_def]
  rw [Traced.bind_attempted_ok _ _ false hinv, hreads]
  simp only [Bool.false_eq_true, if_false]
  rw [Traced.bind_attempted_ok _ _ k hd, hdr]
  obtain ⟨rest, hrest⟩ := tableWord_bind_attempted table
    (wrap32 (sub32 k s.lowest_entry + s.attrib_offset) + ATT_SIZE * 10) _
  refine ⟨rest, ?_⟩
  rw [hrest]
  simp [ATT_SIZE]

/-- An iteration starts by reading its key. -/
theorem iteration_reads_head (table : Buffer) (sheets : List Sheet) (sprt_info : Buffer)
    (sprt_path out_dir_path : FsPath) (verbose : Bool) (s : Setup) (i k : Nat)
    (hk : readU32 sprt_info (keyOffset i) = some k) :
    ∃ rest, (iteration table sheets sprt_info sprt_path out_dir_path verbose s i).reads =
      .descriptor (keyOffset i) 4 :: rest := by
  have hd : ∀ (β : Type) (f : Nat → Traced β), ∃ rest,
      (descDword sprt_info (keyOffset i) >>= f).reads = .descriptor (keyOffset i) 4 :: rest := by
    intro β f
    obtain ⟨r, hr⟩ := Traced.bind_reads (descDword sprt_info (keyOffset i)) f
    exact ⟨r, by rw [bind_def, hr]; simp [descDword, hk]⟩
  have hi : ∃ rest, (invalid_entry sprt_info s i).reads = .descriptor (keyOffset i) 4 :: rest := by
    unfold invalid_entry
    exact hd _ _
  have hb : ∀ (f : Bool → Traced Step), ∃ rest,
      (invalid_entry sprt_info s i >>= f).reads = .descriptor (keyOffset i) 4 :: rest := by
    intro f
    obtain ⟨r, hr⟩ := Traced.bind_reads (invalid_entry sprt_info s i) f
    obtain ⟨r0, hr0⟩ := hi
    exact ⟨r0 ++ r, by rw [bind_def, hr, hr0]; rfl⟩
  unfold iteration
  exact hb _

theorem is_data_correct_within (P : Access → Prop) (hT : ∀ o w, P (.table o w))
    (table : Buffer) (g : Nat) (sheet : Sheet) :
    Traced.Within P (__is_data_correct__ table g sheet) := by
  unfold __is_data_correct__
  repeat' first
    | apply Traced.within_pure
    | apply Traced.within_bind
    | apply Traced.within_ite
    | apply within_tableWord
    | exact hT _ _
    | intro _

theorem frameLog_within (P : Access → Prop) (hT : ∀ o w, P (.table o w))
    (table : Buffer) (g i : Nat) (output : FsPath) :
    Traced.Within P (frameLog table g i output) := by
  unfold frameLog
  repeat' first
    | apply Traced.within_pure
    | apply Traced.within_bind
    | apply within_tableWord
    | exact hT _ _
    | intro _

theorem invalid_entry_within (P : Access → Prop) (sprt_info : Buffer) (s : Setup) (i : Nat)
    (hD : P (.descriptor (keyOffset i) 4)) :
    Traced.Within P (invalid_entry sprt_info s i) := by
  unfold invalid_entry
  repeat' first
    | apply Traced.within_pure
    | apply Traced.within_bind
    | apply Traced.within_ite
    | apply within_descDword
    | exact hD
    | intro _

/-- Every access an iteration attempts is to the table, to the sheets, a crop, or
to the key of its index. -/
theorem iteration_within (P : Access → Prop) (hT : ∀ o w, P (.table o w))
    (hS : ∀ j, P (.sheet j)) (hC : ∀ j x y w h, P (.crop j x y w h))
    (table : Buffer) (sheets : List Sheet) (sprt_info : Buffer)
    (sprt_path out_dir_path : FsPath) (verbose : Bool) (s : Setup) (i : Nat)
    (hD : P (.descriptor (keyOffset i) 4)) :
    Traced.Within P (iteration table sheets sprt_info sprt_path out_dir_path verbose s i) := by
  unfold iteration
  dsimp only
  repeat' first
    | apply within_cropSheet
    | apply Traced.within_pure
    | apply Traced.within_bind
    | apply Traced.within_ite
    | apply within_tableWord
    | apply within_sheetAt
    | apply within_descDword
    | apply is_data_correct_within
    | apply frameLog_within
    | apply invalid_entry_within
    | exact hT _ _
    | exact hT
    | exact hS _
    | exact hC _ _ _ _ _
    | exact hD
    | intro _

theorem is_data_correct_faultIs (P : Access → Prop) (hT : ∀ o w, P (.table o w))
    (table : Buffer) (g : Nat) (sheet : Sheet) :
    Traced.FaultIs P (__is_data_correct__ table g sheet) := by
  unfold __is_data_correct__
  repeat' first
    | apply Traced.faultIs_pure
    | apply Traced.faultIs_bind
    | apply Traced.faultIs_ite
    | apply faultIs_tableWord
    | exact hT _ _
    | intro _

theorem frameLog_faultIs (P : Access → Prop) (hT : ∀ o w, P (.table o w))
    (table : Buffer) (g i : Nat) (output : FsPath) :
    Traced.FaultIs P (frameLog table g i output) := by
  unfold frameLog
  repeat' first
    | apply Traced.faultIs_pure
    | apply Traced.faultIs_bind
    | apply faultIs_tableWord
    | exact hT _ _
    | intro _

theorem invalid_entry_faultIs (P : Access → Prop) (sprt_info : Buffer) (s : Setup) (i k : Nat)
    (hk : readU32 sprt_info (keyOffset i) = some k) :
    Traced.FaultIs P (invalid_entry sprt_info s i) := by
  unfold invalid_entry
  repeat' first
    | apply Traced.faultIs_pure
    | apply Traced.faultIs_bind
    | apply Traced.faultIs_ite
    | exact faultIs_descDword_of_some _ _ _ _ hk
    | intro _

/-- When the key of an iteration lies in the description file, the iteration
can only leave the table, the vector of sheets, or a sheet with its crop. -/
theorem iteration_faultIs (P : Access → Prop) (hT : ∀ o w, P (.table o w))
    (hS : ∀ j, P (.sheet j)) (hC : ∀ j x y w h, P (.crop j x y w h))
    (table : Buffer) (sheets : List Sheet)
    (sprt_info : Buffer) (sprt_path out_dir_path : FsPath) (verbose : Bool) (s : Setup)
    (i k : Nat) (hk : readU32 sprt_info (keyOffset i) = some k) :
    Traced.FaultIs P
      (iteration table sheets sprt_info sprt_path out_dir_path verbose s i) := by
  unfold iteration
  dsimp only
  repeat' first
    | apply faultIs_cropSheet
    | apply Traced.faultIs_pure
    | apply Traced.faultIs_bind
    | apply Traced.faultIs_ite
    | apply faultIs_tableWord
    | apply faultIs_sheetAt
    | exact faultIs_descDword_of_some _ _ _ _ hk
    | exact invalid_entry_faultIs _ _ _ _ _ hk
    | apply is_data_correct_faultIs
    | apply frameLog_faultIs
    | exact hT _ _
    | exact hT
    | exact hS _
    | exact hC _ _ _ _ _
    | intro _

/-! ## The setup and the loop -/

/-- The values `split_sprite` holds when it enters the loop. -/
theorem setup_ok_iff (table sprt_info : Buffer) (s : Setup) :
    (setup table sprt_info).result = .ok s ↔
      readU32 table 0 = some s.n_entries ∧
      readU32 table 4 = some s.lowest_entry ∧
      readU32 table (wrap32 (4 + wrap32 (4 * s.n_entries))) = some s.highest_entry ∧
      s.attrib_offset = wrap32 (4 * wrap32 (s.n_entries + 1)) ∧
      readU32 sprt_info 52 = some s.n_sprites := by
  unfold setup
  simp only [DW, Nat.reduceMul, bind_def, Traced.bind_ok_iff, tableDword_ok_iff,
    descDword_ok_iff, pure_def, Traced.pure_ok_iff]
  constructor
  · rintro ⟨n, hn, lo, hlo, hi, hhi, fc, hfc, rfl⟩
    exact ⟨hn, hlo, hhi, rfl, hfc⟩
  · rintro ⟨hn, hlo, hhi, hatt, hfc⟩
    refine ⟨_, hn, _, hlo, _, hhi, _, hfc, ?_⟩
    cases s
    simp only at hatt
    simp [hatt]

theorem split_sprite_setup (table : Buffer) (sheets : List Sheet) (sprt_info : Buffer)
    (sprt_path out_dir_path : FsPath) (verbose : Bool) :
    (split_sprite table sheets sprt_info sprt_path out_dir_path verbose).setup =
      setup table sprt_info := by
  unfold split_sprite
  rcases h : (setup table sprt_info).result with s | a
  · simp only [h]
  · simp only [h]

theorem split_sprite_iterations (table : Buffer) (sheets : List Sheet) (sprt_info : Buffer)
    (sprt_path out_dir_path : FsPath) (verbose : Bool) (s : Setup)
    (hs : (setup table sprt_info).result = .ok s) :
    (split_sprite table sheets sprt_info sprt_path out_dir_path verbose).iterations =
      loop (iteration table sheets sprt_info sprt_path out_dir_path verbose s) s.n_sprites 0 := by
  unfold split_sprite
  simp only [hs]

theorem loop_getElem? (body : Nat → Traced Step) (r i j : Nat) (t : Traced Step)
    (h : (loop body r i)[j]? = some t) : j < r ∧ t = body (i + j) := by
  induction r generalizing i j with
  | zero => simp [loop] at h
  | succ r ih =>
    unfold loop at h
    split at h
    · cases j with
      | zero => simp at h; exact ⟨by omega, h.symm⟩
      | succ j => simp at h
    · cases j with
      | zero => simp at h; exact ⟨by omega, h.symm⟩
      | succ j =>
        simp at h
        have := ih (i + 1) j h
        refine ⟨by omega, ?_⟩
        rw [this.2]; congr 1; omega

theorem loop_head (body : Nat → Traced Step) (r i : Nat) :
    (loop body (r + 1) i)[0]? = some (body i) := by
  unfold loop
  split <;> simp

theorem loop_length_le (body : Nat → Traced Step) (r i : Nat) : (loop body r i).length ≤ r := by
  induction r generalizing i with
  | zero => simp [loop]
  | succ r ih =>
    unfold loop
    split
    · simp
    · have := ih (i + 1)
      simp only [List.length_cons]
      omega

/-- The loop runs all its iterations unless one of them leaves a buffer, and
that one is then the last. -/
theorem loop_length (body : Nat → Traced Step) (r i : Nat) :
    (loop body r i).length = r ∨
      ∃ t a, (loop body r i).getLast? = some t ∧ t.result = .fault a := by
  induction r generalizing i with
  | zero => simp [loop]
  | succ r ih =>
    unfold loop
    split
    · rename_i a h
      exact Or.inr ⟨body i, a, by simp, h⟩
    · rcases ih (i + 1) with h | ⟨t, a, hlast, hf⟩
      · left
        simp [h]
      · right
        refine ⟨t, a, ?_, hf⟩
        rw [List.getLast?_cons, hlast]
        rfl

theorem split_sprite_iteration_at (table : Buffer) (sheets : List Sheet) (sprt_info : Buffer)
    (sprt_path out_dir_path : FsPath) (verbose : Bool) (i : Nat) (t : Traced Step)
    (ht : (split_sprite table sheets sprt_info sprt_path out_dir_path verbose).iterations[i]?
      = some t) :
    ∃ s, (setup table sprt_info).result = .ok s ∧ i < s.n_sprites ∧
      t = iteration table sheets sprt_info sprt_path out_dir_path verbose s i := by
  rcases hsr : (setup table sprt_info).result with s | a
  · rw [split_sprite_iterations table sheets sprt_info sprt_path out_dir_path verbose s hsr] at ht
    obtain ⟨hlt, rfl⟩ := loop_getElem? _ _ _ _ _ ht
    exact ⟨s, rfl, hlt, by rw [Nat.zero_add]⟩
  · unfold split_sprite at ht
    simp [hsr] at ht

/-! ## The table with `2 ^ 30 - 1` entries -/

theorem wrappedHeaderTable_eq :
    wrappedHeaderTable = wrappedHeaderStart ++ List.replicate 27917287372 0 := rfl

theorem wrappedHeaderStart_length : wrappedHeaderStart.length = 30 := by decide

theorem wrappedHeaderTable_count : readU32 wrappedHeaderTable 0 = some 1073741823 := by
  rw [wrappedHeaderTable_eq, readU32_append_left _ _ 0 (by decide)]
  decide

theorem wrappedHeaderTable_length : wrappedHeaderTable.length = 27917287402 := by
  rw [wrappedHeaderTable_eq, List.length_append, List.length_replicate,
    wrappedHeaderStart_length]

theorem wrappedHeaderTable_accepted :
    load_table wrappedHeaderTable = .accepted wrappedHeaderTable := by
  rw [load_table_accepted_iff wrappedHeaderTable 1073741823 wrappedHeaderTable_count,
    wrappedHeaderTable_length]
  decide

theorem wrappedHeaderTable_lowest : readU32 wrappedHeaderTable 4 = some 0 := by
  rw [wrappedHeaderTable_eq, readU32_append_left _ _ 4 (by decide)]
  decide

theorem wrappedHeaderTable_past_index :
    readU32 wrappedHeaderTable (4 + 4 * 1073741823) = some 0 := by
  rw [wrappedHeaderTable_eq]
  exact readU32_append_replicate _ _ _ (by decide) (by decide)

/-- The words of the first 30 bytes. -/
theorem wrappedHeaderTable_word (j : Nat) (hj : j + 2 ≤ 30) :
    readU16 wrappedHeaderTable j = readU16 wrappedHeaderStart j := by
  rw [wrappedHeaderTable_eq]
  exact readU16_append_left _ _ j (by rw [wrappedHeaderStart_length]; exact hj)

theorem wrappedHeaderTable_sheet : readU16 wrappedHeaderTable 42 = some 0 := by
  rw [wrappedHeaderTable_eq]
  exact readU16_append_replicate _ _ 42 (by decide) (by decide)

theorem wrappedHeaderTable_setup :
    (setup wrappedHeaderTable (descriptorOf 22)).result
      = .ok ⟨1073741823, 0, 1073741823, 0, 1⟩ :=
  (setup_ok_iff _ _ _).mpr
    ⟨wrappedHeaderTable_count, wrappedHeaderTable_lowest, wrappedHeaderTable_count,
      by decide, by decide⟩

theorem wrappedHeaderTable_emits :
    ∃ log, (iteration wrappedHeaderTable [⟨2, 2⟩] (descriptorOf 22) [] []
      false ⟨1073741823, 0, 1073741823, 0, 1⟩ 0).result = .ok ⟨.emitted ⟨[] ++ [filename [],
        filename [] ++ toString (0 + 1) ++ ".png"], 0, 0, 0, 1, 1⟩, log⟩ :=
  iteration_emits wrappedHeaderTable [⟨2, 2⟩] (descriptorOf 22) [] []
    false ⟨1073741823, 0, 1073741823, 0, 1⟩ 0 22 0 0 1 1 0 ⟨2, 2⟩ (by decide) (by decide)
    ((wrappedHeaderTable_word 22 (by decide)).trans (by decide))
    ((wrappedHeaderTable_word 24 (by decide)).trans (by decide))
    ((wrappedHeaderTable_word 26 (by decide)).trans (by decide))
    ((wrappedHeaderTable_word 28 (by decide)).trans (by decide))
    wrappedHeaderTable_sheet
    (by decide) (by decide) (by decide) (by decide) (by decide) (by decide) (by decide)
    (by decide)

/-! ## Scenario A -/

/-- Scenario A: the table is accepted and the key 100 yields exactly one frame,
the rectangle `(5, 5, 10, 10)` of sheet 0. -/
theorem scenario_A_emits_one_frame :
    load_table tableA = .accepted tableA ∧
    (split_sprite tableA [⟨20, 20⟩] (descriptorOf 100) ["spr"] ["out"] false).images.map
        (fun image => (image.sheetIndex, image.x, image.y, image.width, image.height))
      = [(0, 5, 5, 10, 10)] := by
  decide

/-! ## The claims -/

/-- Claim C1, at the input where the code departs from it: a table file of four
bytes whose count field is `2 ^ 31`.  The size the claim compares with the
length is `22 * 2 ^ 31 + 4 * (2 ^ 31 + 1)`, far above 4, yet `load_table`
returns the buffer: the product on line 64 is computed modulo `2 ^ 32` and
comes out as 4. -/
theorem load_table_accepts_wrapped_size :
    readU32 wrappedCountFile 0 = some 2147483648 ∧
    ¬ (2147483648 * 22 + 4 * (2147483648 + 1) ≤ wrappedCountFile.length) ∧
    load_table wrappedCountFile = .accepted wrappedCountFile := by
  decide

/-- Claim C2, at the input where the code departs from it: a table with
`entry_count = 2 ^ 30 - 1` and the `26 * entry_count + 4` bytes its records
need, which `load_table` accepts.  The value at byte `4 + 4 * entry_count` is 0,
so the key 22 is above the highest key of the claim and should be skipped, but
`split_sprite` computes the index `4 + 4 * entry_count` modulo `2 ^ 32`, reads
`highest_entry` at byte 0 and emits an image for the key, the rectangle
`(0, 0, 1, 1)` of sheet 0. -/
theorem out_of_range_key_emitted_on_wrapped_header :
    load_table wrappedHeaderTable = .accepted wrappedHeaderTable ∧
    1073741823 * 22 + 4 * (1073741823 + 1) ≤ wrappedHeaderTable.length ∧
    readU32 wrappedHeaderTable 0 = some 1073741823 ∧
    readU32 wrappedHeaderTable 4 = some 0 ∧
    readU32 wrappedHeaderTable (4 + 4 * 1073741823) = some 0 ∧
    readU32 (descriptorOf 22) (56 + 4 * 0) = some 22 ∧
    22 > 0 ∧
    ∃ t output log,
      (split_sprite wrappedHeaderTable [⟨2, 2⟩] (descriptorOf 22) [] [] false).iterations[0]?
        = some t ∧
      t.result = .ok ⟨.emitted ⟨output, 0, 0, 0, 1, 1⟩, log⟩ := by
  refine ⟨wrappedHeaderTable_accepted, by rw [wrappedHeaderTable_length],
    wrappedHeaderTable_count, wrappedHeaderTable_lowest, wrappedHeaderTable_past_index,
    by decide, by decide, ?_⟩
  obtain ⟨log, hlog⟩ := wrappedHeaderTable_emits
  refine ⟨_, _, log, ?_, hlog⟩
  rw [split_sprite_iterations _ _ _ _ _ _ _ wrappedHeaderTable_setup]
  exact loop_head _ 0 0

/-- The range test where the index of line 88 does not wrap: when
`entry_count < 2 ^ 30 - 1`, a frame whose key `k` is below the value at table
byte 4 or above the value at table byte `4 + 4 * entry_count` is skipped as an
invalid table entry: the iteration ends with that skip, emits no image, and its
only reads are reads of the key in the description file, none of the table and
none of the sheets. -/
theorem split_sprite_skips_out_of_range_key (table : Buffer) (sheets : List Sheet)
    (sprt_info : Buffer) (sprt_path out_dir_path : FsPath) (verbose : Bool)
    (n lo hi k i : Nat) (t : Traced Step)
    (hn : readU32 table 0 = some n) (hlo : readU32 table 4 = some lo)
    (hhi : readU32 table (4 + 4 * n) = some hi) (hnowrap : n < 2 ^ 30 - 1)
    (hk : readU32 sprt_info (56 + 4 * i) = some k) (hout : k < lo ∨ k > hi)
    (ht : (split_sprite table sheets sprt_info sprt_path out_dir_path verbose).iterations[i]?
      = some t) :
    t.result = .ok ⟨.skipped .invalidTableEntry, if verbose then [.skipEntry (i + 1)] else []⟩ ∧
      ∀ a ∈ t.reads, a = .descriptor (56 + 4 * i) 4 := by
  obtain ⟨s, hs, -, rfl⟩ := split_sprite_iteration_at _ _ _ _ _ _ _ _ ht
  obtain ⟨h0, h4, hh, -, -⟩ := (setup_ok_iff table sprt_info s).mp hs
  have hn' : s.n_entries = n := by rw [hn] at h0; exact (Option.some.inj h0).symm
  have hlo' : s.lowest_entry = lo := by rw [hlo] at h4; exact (Option.some.inj h4).symm
  have hw : wrap32 (4 + wrap32 (4 * n)) = 4 + 4 * n := by unfold wrap32; omega
  have hhi' : s.highest_entry = hi := by
    rw [hn', hw, hhi] at hh; exact (Option.some.inj hh).symm
  rw [← keyOffset_eq] at hk ⊢
  exact iteration_skip_entry table sheets sprt_info sprt_path out_dir_path verbose s i k hk
    (by omega)

/-- On the table of Scenario A the key 99, below the lowest key 100, is skipped. -/
theorem split_sprite_skips_out_of_range_key_witness :
    ∃ t, (split_sprite tableA [⟨20, 20⟩] (descriptorOf 99) [] [] false).iterations[0]?
        = some t ∧
      t.result = .ok ⟨.skipped .invalidTableEntry, []⟩ :=
  ⟨⟨[.descriptor 56 4, .descriptor 56 4], .ok ⟨.skipped .invalidTableEntry, []⟩⟩, by decide,
    (split_sprite_skips_out_of_range_key tableA [⟨20, 20⟩] (descriptorOf 99) [] [] false
      1 100 327685 99 0 _ (by decide) (by decide) (by decide) (by decide) (by decide)
      (by decide) (by decide)).1⟩

/-- Claim C3: with `lowest_entry` and `highest_entry` the values `split_sprite`
holds when it enters the loop, a key `k` with
`lowest_entry <= k <= highest_entry` and `(k - lowest_entry) mod 22 != 0` is
skipped as an invalid table entry and its iteration reads nothing but the key;
when `(k - lowest_entry) mod 22 = 0` the iteration goes on to the record: after
the four reads of the key, the next access it attempts is `data[10]`, the word
at byte `global_offset + 20` of the table. -/
theorem split_sprite_alignment_check (table : Buffer) (sheets : List Sheet)
    (sprt_info : Buffer) (sprt_path out_dir_path : FsPath) (verbose : Bool)
    (s : Setup) (k i : Nat) (t : Traced Step)
    (hs : (split_sprite table sheets sprt_info sprt_path out_dir_path verbose).setup.result
      = .ok s)
    (hk : readU32 sprt_info (56 + 4 * i) = some k)
    (hlo : s.lowest_entry ≤ k) (hhi : k ≤ s.highest_entry)
    (ht : (split_sprite table sheets sprt_info sprt_path out_dir_path verbose).iterations[i]?
      = some t) :
    ((k - s.lowest_entry) % 22 ≠ 0 →
      t.result =
          .ok ⟨.skipped .invalidTableEntry, if verbose then [.skipEntry (i + 1)] else []⟩ ∧
        ∀ a ∈ t.reads, a = .descriptor (56 + 4 * i) 4) ∧
    ((k - s.lowest_entry) % 22 = 0 →
      ∃ rest, t.attempted =
        [.descriptor (56 + 4 * i) 4, .descriptor (56 + 4 * i) 4, .descriptor (56 + 4 * i) 4,
          .descriptor (56 + 4 * i) 4,
          .table (wrap32 (k - s.lowest_entry + s.attrib_offset) + 20) 2] ++ rest) := by
  rw [split_sprite_setup] at hs
  obtain ⟨s', hs', -, rfl⟩ := split_sprite_iteration_at _ _ _ _ _ _ _ _ ht
  obtain rfl : s = s' := by rw [hs] at hs'; exact Res.ok.inj hs'
  have hsub : sub32 k s.lowest_entry = k - s.lowest_entry :=
    sub32_of_le hlo (readU32_lt hk)
  rw [← keyOffset_eq] at hk ⊢
  constructor
  · intro hmis
    exact iteration_skip_entry table sheets sprt_info sprt_path out_dir_path verbose s i k hk
      (Or.inr (Or.inr (by rw [hsub]; exact hmis)))
  · intro hal
    rw [← hsub]
    exact iteration_fetches table sheets sprt_info sprt_path out_dir_path verbose s i k hk
      ⟨hlo, hhi, by rw [hsub]; exact hal⟩

/-- Witness of C3, Scenario B: lowest key 100 and key 101. -/
theorem split_sprite_alignment_check_witness :
    ∃ t, (split_sprite tableA [⟨20, 20⟩] (descriptorOf 101) [] [] false).iterations[0]?
        = some t ∧
      t.result = .ok ⟨.skipped .invalidTableEntry, []⟩ ∧
      t.reads = [.descriptor 56 4, .descriptor 56 4, .descriptor 56 4] :=
  ⟨⟨[.descriptor 56 4, .descriptor 56 4, .descriptor 56 4],
      .ok ⟨.skipped .invalidTableEntry, []⟩⟩, by decide,
    ((split_sprite_alignment_check tableA [⟨20, 20⟩] (descriptorOf 101) [] [] false
      ⟨1, 100, 327685, 8, 1⟩ 101 0 _ (by decide) (by decide) (by decide) (by decide)
      (by decide)).1 (by decide)).1, rfl⟩

/-- Claim C4, at the input where the code departs from it: the record names
sheet 1 and one sheet is loaded.  Line 113 compares with `>`, so the frame is
not skipped and line 119 evaluates `sheets[1]`, outside the vector. -/
theorem sheet_index_equal_to_count_is_dereferenced :
    readU16 tableSheetOne (8 + (100 - 100) + 20) = some 1 ∧
    1 ≥ ([⟨20, 20⟩] : List Sheet).length ∧
    (split_sprite tableSheetOne [⟨20, 20⟩] (descriptorOf 100) [] [] false).iterations.map
        Traced.attempted
      = [[.descriptor 56 4, .descriptor 56 4, .descriptor 56 4, .descriptor 56 4,
          .table 28 2, .table 28 2, .sheet 1]] ∧
    (split_sprite tableSheetOne [⟨20, 20⟩] (descriptorOf 100) [] [] false).iterations.map
        Traced.result
      = [.fault (.sheet 1)] := by
  decide

/-- Claim C5, at the input where the code departs from it: the rectangle
`(x, y, width, height) = (5, 0, 6, 1)` on a sheet of 10 columns and 10 rows
passes `__is_data_correct__`, which compares `x` and `height + x` with the rows
and `y` and `width + y` with the columns.  The frame is not skipped as incorrect
frame data: the iteration goes on to line 126 and requests the crop
`(5, 0, 6, 1)` of sheet 0 although `x + width = 11` exceeds the 10 columns.  The
crop throws, which ends the run; no skip is recorded and no image is written. -/
theorem crop_exceeds_sheet_width :
    (__is_data_correct__ tableWide 8 ⟨10, 10⟩).result = .ok true ∧
    ¬ (5 + 6 ≤ (⟨10, 10⟩ : Sheet).cols) ∧
    (split_sprite tableWide [⟨10, 10⟩] (descriptorOf 0) ["spr"] ["out"] false).iterations.map
        Traced.result
      = [.fault (.crop 0 5 0 6 1)] ∧
    (split_sprite tableWide [⟨10, 10⟩] (descriptorOf 0) ["spr"] ["out"] false).skipped = [] ∧
    (split_sprite tableWide [⟨10, 10⟩] (descriptorOf 0) ["spr"] ["out"] false).images = [] := by
  decide

/-- Claim C6, at the input where the code departs from it: a frame at origin
`(0, 0)` whose width and height are those of the 20 x 20 sheet satisfies the
four conditions of the claim, yet it is skipped as incorrect frame data and no
image is written: `__is_data_correct__` asks for `width + y < cols`. -/
theorem full_sheet_frame_is_skipped :
    (0 < (⟨20, 20⟩ : Sheet).cols ∧ 0 < (⟨20, 20⟩ : Sheet).rows ∧
      0 + 20 ≤ (⟨20, 20⟩ : Sheet).cols ∧ 0 + 20 ≤ (⟨20, 20⟩ : Sheet).rows) ∧
    (split_sprite tableFull [⟨20, 20⟩] (descriptorOf 0) ["spr"] ["out"] false).iterations.map
        Traced.result
      = [.ok ⟨.skipped .incorrectFrameData, []⟩] ∧
    (split_sprite tableFull [⟨20, 20⟩] (descriptorOf 0) ["spr"] ["out"] false).images = [] := by
  decide

set_option maxRecDepth 8000 in
/-- Claim C7, at the input where the code departs from it: a table of 212 bytes
with `entry_count = 8`, which `load_table` accepts, and the key `2 ^ 32 - 26`.
The offset of the claim, `4 * (entry_count + 1) + (k - lowest_key)`, is
`2 ^ 32 + 10` and names no byte of the table, but the 32-bit sum
`(k - lowest_key) + attrib_offset` of line 110 wraps to 10, below
`attrib_offset = 36`, and `split_sprite` emits the rectangle `(0, 0, 1, 1)` of
sheet 0 read at byte 10, inside the index of keys. -/
theorem emitted_frame_not_at_unwrapped_offset :
    load_table tableWrappedOffset = .accepted tableWrappedOffset ∧
    8 * 22 + 4 * (8 + 1) ≤ tableWrappedOffset.length ∧
    (split_sprite tableWrappedOffset [⟨2, 2⟩] highKeyDescriptor [] [] false).setup.result
      = .ok ⟨8, 0, 4294967295, 36, 1⟩ ∧
    readU32 highKeyDescriptor 56 = some 4294967270 ∧
    (split_sprite tableWrappedOffset [⟨2, 2⟩] highKeyDescriptor [] [] false).images.map
        (fun image => (image.sheetIndex, image.x, image.y, image.width, image.height))
      = [(0, 0, 0, 1, 1)] ∧
    readU16 tableWrappedOffset (4 * (8 + 1) + (4294967270 - 0)) = none := by
  decide

/-- The record fetch where the sum of line 110 does not wrap: when
`split_sprite` emits an image for the key `k` and
`g = 4 * (entry_count + 1) + (k - lowest_key)` is below `2 ^ 32`, the image is
made of the fields of the record at byte `g` of the table: `x`, `y`, `width`
and `height` are the words at `g`, `g + 2`, `g + 4` and `g + 6`, and the sheet
is the one whose index is the word at `g + 20`.  The fields 4 to 9 have no
influence: a table with the same header values and the same five words emits
the same image for that key. -/
theorem split_sprite_emits_record_fields (table : Buffer) (sheets : List Sheet)
    (sprt_info : Buffer) (sprt_path out_dir_path : FsPath) (verbose : Bool)
    (s : Setup) (k i : Nat) (t : Traced Step) (image : Image) (log : List LogLine)
    (hs : (split_sprite table sheets sprt_info sprt_path out_dir_path verbose).setup.result
      = .ok s)
    (hk : readU32 sprt_info (56 + 4 * i) = some k)
    (ht : (split_sprite table sheets sprt_info sprt_path out_dir_path verbose).iterations[i]?
      = some t)
    (hemit : t.result = .ok ⟨.emitted image, log⟩)
    (hnowrap : 4 * (s.n_entries + 1) + (k - s.lowest_entry) < 2 ^ 32) :
    (readU16 table (4 * (s.n_entries + 1) + (k - s.lowest_entry)) = some image.x ∧
      readU16 table (4 * (s.n_entries + 1) + (k - s.lowest_entry) + 2) = some image.y ∧
      readU16 table (4 * (s.n_entries + 1) + (k - s.lowest_entry) + 4) = some image.width ∧
      readU16 table (4 * (s.n_entries + 1) + (k - s.lowest_entry) + 6) = some image.height ∧
      readU16 table (4 * (s.n_entries + 1) + (k - s.lowest_entry) + 20)
        = some image.sheetIndex) ∧
    ∀ (table' : Buffer) (t' : Traced Step),
      (split_sprite table' sheets sprt_info sprt_path out_dir_path verbose).setup.result
          = .ok s →
      (∀ j ∈ [0, 2, 4, 6, 20],
        readU16 table' (4 * (s.n_entries + 1) + (k - s.lowest_entry) + j)
          = readU16 table (4 * (s.n_entries + 1) + (k - s.lowest_entry) + j)) →
      (split_sprite table' sheets sprt_info sprt_path out_dir_path verbose).iterations[i]?
          = some t' →
      outcomeOf t' = some (.emitted image) := by
  rw [split_sprite_setup] at hs
  obtain ⟨s', hs', -, rfl⟩ := split_sprite_iteration_at _ _ _ _ _ _ _ _ ht
  obtain rfl : s = s' := by rw [hs] at hs'; exact Res.ok.inj hs'
  rw [← keyOffset_eq] at hk
  obtain ⟨hgood, ⟨hx, hy, hw, hh, h10⟩, ⟨sheet, hsheet, hempty, c0, c1, c2, c3, c4, c5⟩,
      hout⟩ :=
    iteration_emitted_inv table sheets sprt_info sprt_path out_dir_path verbose s i k _ image
      hk hemit rfl
  have hatt := ((setup_ok_iff table sprt_info s).mp hs).2.2.2.1
  have hg : wrap32 (sub32 k s.lowest_entry + s.attrib_offset)
      = 4 * (s.n_entries + 1) + (k - s.lowest_entry) := by
    rw [sub32_of_le hgood.1 (readU32_lt hk), hatt]
    unfold wrap32
    omega
  rw [hg] at hx hy hw hh h10
  refine ⟨⟨hx, hy, hw, hh, h10⟩, ?_⟩
  intro table' t' hs' hagree ht'
  rw [split_sprite_setup] at hs'
  obtain ⟨s'', hs'', -, rfl⟩ := split_sprite_iteration_at _ _ _ _ _ _ _ _ ht'
  obtain rfl : s = s'' := by rw [hs'] at hs''; exact Res.ok.inj hs''
  have a0 := hagree 0 (by simp)
  have a2 := hagree 2 (by simp)
  have a4 := hagree 4 (by simp)
  have a6 := hagree 6 (by simp)
  have a20 := hagree 20 (by simp)
  rw [Nat.add_zero] at a0
  rw [← hg] at a0 a2 a4 a6 a20 hx hy hw hh h10
  obtain ⟨log', hlog'⟩ := iteration_emits table' sheets sprt_info sprt_path out_dir_path
    verbose s i k image.x image.y image.width image.height image.sheetIndex sheet hk hgood
    (a0.trans hx) (a2.trans hy) (a4.trans hw) (a6.trans hh) (a20.trans h10)
    hsheet hempty c0 c1 c2 c3 c4 c5
  unfold outcomeOf
  rw [hlog', ← hout]

/-- Scenario A: the image emitted for the key 100 is made of the words at bytes
8, 10, 12, 14 and 28 of the table. -/
theorem split_sprite_emits_record_fields_witness :
    readU16 tableA (4 * (1 + 1) + (100 - 100)) = some 5 ∧
      readU16 tableA (4 * (1 + 1) + (100 - 100) + 2) = some 5 ∧
      readU16 tableA (4 * (1 + 1) + (100 - 100) + 4) = some 10 ∧
      readU16 tableA (4 * (1 + 1) + (100 - 100) + 6) = some 10 ∧
      readU16 tableA (4 * (1 + 1) + (100 - 100) + 20) = some 0 :=
  (split_sprite_emits_record_fields tableA [⟨20, 20⟩] (descriptorOf 100) ["spr"] ["out"] false
    ⟨1, 100, 327685, 8, 1⟩ 100 0
    (iteration tableA [⟨20, 20⟩] (descriptorOf 100) ["spr"] ["out"] false
      ⟨1, 100, 327685, 8, 1⟩ 0)
    ⟨["out", "spr", "spr1.png"], 0, 5, 5, 10, 10⟩ []
    (by decide) (by decide) (by decide) (by decide) (by decide)).1

/-- The keys of the loop: when the header of the table can be read and the
description file has at least `56 + 4 * frame_count` bytes, `frame_count` being
the value at its byte 52, the loop of `split_sprite` runs `frame_count`
iterations, unless one of them leaves the table or the vector of sheets or has
its crop thrown, which ends the run there and is never a read of the description
file.  The iteration at position `i` exists only for `i < frame_count`, starts
by reading its key, the value at byte `56 + 4 * i`, and reads the description
file nowhere else. -/
theorem split_sprite_processes_frame_count_keys (table : Buffer) (sheets : List Sheet)
    (sprt_info : Buffer) (sprt_path out_dir_path : FsPath) (verbose : Bool)
    (s : Setup) (frame_count : Nat)
    (hs : (split_sprite table sheets sprt_info sprt_path out_dir_path verbose).setup.result
      = .ok s)
    (hfc : readU32 sprt_info 52 = some frame_count)
    (hlen : 56 + 4 * frame_count ≤ sprt_info.length) :
    ((split_sprite table sheets sprt_info sprt_path out_dir_path verbose).iterations.length
        = frame_count ∨
      ∃ t a,
        (split_sprite table sheets sprt_info sprt_path out_dir_path verbose).iterations.getLast?
          = some t ∧
        t.result = .fault a ∧ ∀ o w, a ≠ .descriptor o w) ∧
    ∀ (i : Nat) (t : Traced Step),
      (split_sprite table sheets sprt_info sprt_path out_dir_path verbose).iterations[i]?
          = some t →
        i < frame_count ∧
        (∃ k rest, readU32 sprt_info (56 + 4 * i) = some k ∧
          t.reads = .descriptor (56 + 4 * i) 4 :: rest) ∧
        (∀ a ∈ t.attempted, ∀ o w, a = .descriptor o w → o = 56 + 4 * i ∧ w = 4) ∧
        ∀ o w, t.result ≠ .fault (.descriptor o w) := by
  rw [split_sprite_setup] at hs
  have hn : s.n_sprites = frame_count := by
    have := ((setup_ok_iff table sprt_info s).mp hs).2.2.2.2
    rw [hfc] at this
    exact (Option.some.inj this).symm
  have hkey : ∀ i, i < frame_count → ∃ k, readU32 sprt_info (keyOffset i) = some k := by
    intro i hi
    apply Option.isSome_iff_exists.mp
    rw [readU32_isSome_iff, keyOffset_eq]
    omega
  have hiter : ∀ (i : Nat) (t : Traced Step),
      (split_sprite table sheets sprt_info sprt_path out_dir_path verbose).iterations[i]?
          = some t →
        i < frame_count ∧
          t = iteration table sheets sprt_info sprt_path out_dir_path verbose s i := by
    intro i t ht
    obtain ⟨s', hs', hlt, rfl⟩ := split_sprite_iteration_at _ _ _ _ _ _ _ _ ht
    obtain rfl : s = s' := by rw [hs] at hs'; exact Res.ok.inj hs'
    exact ⟨by omega, rfl⟩
  have hnd : ∀ (i : Nat) (t : Traced Step),
      (split_sprite table sheets sprt_info sprt_path out_dir_path verbose).iterations[i]?
          = some t → ∀ a, t.result = .fault a → ∀ o w, a ≠ .descriptor o w := by
    intro i t ht a ha o w
    obtain ⟨hlt, rfl⟩ := hiter i t ht
    obtain ⟨k, hk⟩ := hkey i hlt
    have := iteration_faultIs (fun a => ∀ o w, a ≠ .descriptor o w)
      (by intro _ _ _ _ h; cases h) (by intro _ _ _ h; cases h)
      (by intro _ _ _ _ _ _ _ h; cases h)
      table sheets sprt_info sprt_path out_dir_path verbose s i k hk
    unfold Traced.FaultIs at this
    exact this a ha o w
  constructor
  · rw [split_sprite_iterations table sheets sprt_info sprt_path out_dir_path verbose s hs]
    rcases loop_length (iteration table sheets sprt_info sprt_path out_dir_path verbose s)
      s.n_sprites 0 with h | ⟨t, a, hlast, hf⟩
    · left
      rw [h, hn]
    · right
      refine ⟨t, a, hlast, hf, ?_⟩
      rw [List.getLast?_eq_getElem?] at hlast
      rw [← split_sprite_iterations table sheets sprt_info sprt_path out_dir_path verbose s hs]
        at hlast
      exact hnd _ t hlast a hf
  · intro i t ht
    obtain ⟨hlt, rfl⟩ := hiter i t ht
    obtain ⟨k, hk⟩ := hkey i hlt
    refine ⟨hlt, ?_, ?_, ?_⟩
    · obtain ⟨rest, hrest⟩ := iteration_reads_head table sheets sprt_info sprt_path
        out_dir_path verbose s i k hk
      rw [keyOffset_eq] at hk hrest
      exact ⟨k, rest, hk, hrest⟩
    · have := iteration_within (fun a => ∀ o w, a = .descriptor o w → o = 56 + 4 * i ∧ w = 4)
        (by intro _ _ _ _ h; cases h) (by intro _ _ _ h; cases h)
        (by intro _ _ _ _ _ _ _ h; cases h)
        table sheets sprt_info sprt_path out_dir_path verbose s i
        (by intro o w h; cases h; exact ⟨keyOffset_eq i, rfl⟩)
      unfold Traced.Within at this
      exact this
    · intro o w hf
      exact hnd i _ ht _ hf o w rfl

/-- On the description file of Scenario A, 60 bytes with one frame, the loop runs
one iteration. -/
theorem split_sprite_processes_frame_count_keys_witness :
    (split_sprite tableA [⟨20, 20⟩] (descriptorOf 100) [] [] false).iterations.length = 1 ∨
      ∃ t a,
        (split_sprite tableA [⟨20, 20⟩] (descriptorOf 100) [] [] false).iterations.getLast?
          = some t ∧
        t.result = .fault a ∧ ∀ o w, a ≠ .descriptor o w :=
  (split_sprite_processes_frame_count_keys tableA [⟨20, 20⟩] (descriptorOf 100) [] [] false
    ⟨1, 100, 327685, 8, 1⟩ 1 (by decide) (by decide) (by decide)).1

/-- Claim C8, at the input where the code departs from it: a description file of
64 bytes, the `56 + 4 * 2` bytes the claim asks for, announces two frames, both
of key 0.  On `tableWide`, which `load_table` accepts, and one sheet of 10 x 10
the first iteration reads its key at byte 56 and requests the crop
`(5, 0, 6, 1)` of sheet 0, which throws (its record passes
`__is_data_correct__`, as in C5).  The run ends there: one iteration for
`frame_count = 2`, and the key at byte 60 is never read. -/
theorem run_ends_before_second_key :
    readU32 (descriptorTwo 0 0) 52 = some 2 ∧
    56 + 4 * 2 ≤ (descriptorTwo 0 0).length ∧
    driver_accepts (descriptorTwo 0 0) = true ∧
    load_table tableWide = .accepted tableWide ∧
    (split_sprite tableWide [⟨10, 10⟩] (descriptorTwo 0 0) ["spr"] ["out"] false).iterations.map
        Traced.result
      = [.fault (.crop 0 5 0 6 1)] ∧
    (split_sprite tableWide [⟨10, 10⟩] (descriptorTwo 0 0) ["spr"] ["out"] false).iterations.length
      = 1 ∧
    ∀ t ∈ (split_sprite tableWide [⟨10, 10⟩] (descriptorTwo 0 0) ["spr"] ["out"]
        false).iterations,
      Access.descriptor 56 4 ∈ t.attempted ∧ Access.descriptor 60 4 ∉ t.attempted := by
  decide

/-- Claim C9, at the input where the code departs from it: a description file
of 57 bytes passes the size test of `main`, announces one frame, and
`split_sprite` reads the key at bytes 56 to 59, of which only byte 56 exists;
no test rejects the file. -/
theorem short_descriptor_is_read_out_of_range :
    driver_accepts shortDescriptor = true ∧
    readU32 shortDescriptor 52 = some 1 ∧
    ¬ (56 + 4 * 0 + 4 ≤ shortDescriptor.length) ∧
    (split_sprite tableA [⟨20, 20⟩] shortDescriptor [] [] false).iterations
      = [⟨[], .fault (.descriptor 56 4)⟩] := by
  decide

/-- Claim C10, at the input where the code departs from it: the table of
Scenario A is accepted by `load_table`; the key 122 passes the range test
(`highest_entry` is read from the first bytes of the record, 327685) and the
alignment test; its record would start at byte 30, the length of the table,
and the read of `data[10]` at byte 50 leaves the buffer. -/
theorem record_read_past_accepted_table :
    load_table tableA = .accepted tableA ∧
    (split_sprite tableA [⟨20, 20⟩] (descriptorOf 122) [] [] false).setup.result
      = .ok ⟨1, 100, 327685, 8, 1⟩ ∧
    readU32 (descriptorOf 122) 56 = some 122 ∧
    (100 ≤ 122 ∧ 122 ≤ 327685 ∧ (122 - 100) % 22 = 0) ∧
    ¬ (8 + (122 - 100) + 22 ≤ tableA.length) ∧
    (split_sprite tableA [⟨20, 20⟩] (descriptorOf 122) [] [] false).iterations.map
        Traced.result
      = [.fault (.table 50 2)] := by
  decide

/-! ## Results of an iteration, case by case -/

theorem Traced.bind_result_ok {α β : Type} (m : Traced α) (f : α → Traced β) (v : α)
    (h : m.result = .ok v) : (m >>= f).result = (f v).result := by
  rw [bind_def]
  unfold Traced.bind
  simp only [h]

theorem Traced.bind_result_fault {α β : Type} (m : Traced α) (f : α → Traced β) (a : Access)
    (h : m.result = .fault a) : (m >>= f).result = .fault a := by
  rw [bind_def]
  unfold Traced.bind
  simp only [h]

theorem Traced.bind_reads_ok {α β : Type} (m : Traced α) (f : α → Traced β) (v : α)
    (h : m.result = .ok v) : (m >>= f).reads = m.reads ++ (f v).reads := by
  rw [bind_def]
  unfold Traced.bind
  simp only [h]

theorem tableWord_result_some (table : Buffer) (offset v : Nat)
    (h : readU16 table offset = some v) : (tableWord table offset).result = .ok v := by
  simp [tableWord, h]

theorem tableWord_result_none (table : Buffer) (offset : Nat)
    (h : readU16 table offset = none) :
    (tableWord table offset).result = .fault (.table offset 2) := by
  simp [tableWord, h]

theorem descDword_result_some (sprt_info : Buffer) (offset v : Nat)
    (h : readU32 sprt_info offset = some v) : (descDword sprt_info offset).result = .ok v := by
  simp [descDword, h]

theorem descDword_result_none (sprt_info : Buffer) (offset : Nat)
    (h : readU32 sprt_info offset = none) :
    (descDword sprt_info offset).result = .fault (.descriptor offset 4) := by
  simp [descDword, h]

theorem sheetAt_result_some (sheets : List Sheet) (index : Nat) (sheet : Sheet)
    (h : sheets[index]? = some sheet) : (sheetAt sheets index).result = .ok sheet := by
  simp [sheetAt, h]

theorem sheetAt_result_none (sheets : List Sheet) (index : Nat)
    (h : sheets[index]? = none) : (sheetAt sheets index).result = .fault (.sheet index) := by
  simp [sheetAt, h]

/-- An iteration whose key lies outside the description file stops at the read
of the key. -/
theorem iteration_fault_key (table : Buffer) (sheets : List Sheet) (sprt_info : Buffer)
    (sprt_path out_dir_path : FsPath) (verbose : Bool) (s : Setup) (i : Nat)
    (hk : readU32 sprt_info (keyOffset i) = none) :
    (iteration table sheets sprt_info sprt_path out_dir_path verbose s i).result =
      .fault (.descriptor (keyOffset i) 4) := by
  have hinv : (invalid_entry sprt_info s i).result = .fault (.descriptor (keyOffset i) 4) := by
    unfold invalid_entry
    exact Traced.bind_result_fault _ _ _ (descDword_result_none _ _ hk)
  unfold iteration
  exact Traced.bind_result_fault _ _ _ hinv

/-- An iteration that gives a result has read its key. -/
theorem iteration_ok_key (table : Buffer) (sheets : List Sheet) (sprt_info : Buffer)
    (sprt_path out_dir_path : FsPath) (verbose : Bool) (s : Setup) (i : Nat) (st : Step)
    (h : (iteration table sheets sprt_info sprt_path out_dir_path verbose s i).result = .ok st) :
    ∃ k, readU32 sprt_info (keyOffset i) = some k := by
  rcases hk : readU32 sprt_info (keyOffset i) with _ | k
  · rw [iteration_fault_key _ _ _ _ _ _ _ _ hk] at h
    cases h
  · exact ⟨k, rfl⟩

theorem invalid_entry_false (sprt_info : Buffer) (s : Setup) (i k : Nat)
    (hk : readU32 sprt_info (keyOffset i) = some k)
    (hgood : s.lowest_entry ≤ k ∧ k ≤ s.highest_entry ∧
        sub32 k s.lowest_entry % (ATT_LEN * ATT_SIZE) = 0) :
    (invalid_entry sprt_info s i).result = .ok false := by
  rw [(invalid_entry_result sprt_info s i k hk).1]
  congr 1
  apply decide_eq_false
  omega

/-- The read of `data[10]` on line 113 leaves the table. -/
theorem iteration_fault_sheet_word (table : Buffer) (sheets : List Sheet) (sprt_info : Buffer)
    (sprt_path out_dir_path : FsPath) (verbose : Bool) (s : Setup) (i k : Nat)
    (hk : readU32 sprt_info (keyOffset i) = some k)
    (hgood : s.lowest_entry ≤ k ∧ k ≤ s.highest_entry ∧
        sub32 k s.lowest_entry % (ATT_LEN * ATT_SIZE) = 0)
    (h10 : readU16 table (wrap32 (sub32 k s.lowest_entry + s.attrib_offset) + 20) = none) :
    (iteration table sheets sprt_info sprt_path out_dir_path verbose s i).result =
      .fault (.table (wrap32 (sub32 k s.lowest_entry + s.attrib_offset) + 20) 2) := by
  unfold iteration
  rw [Traced.bind_result_ok _ _ false (invalid_entry_false sprt_info s i k hk hgood)]
  simp only [Bool.false_eq_true, if_false]
  rw [Traced.bind_result_ok _ _ k (descDword_result_some _ _ _ hk)]
  simp only [ATT_SIZE, Nat.reduceMul, Nat.add_zero]
  rw [Traced.bind_result_fault _ _ _ (tableWord_result_none _ _ h10)]

/-- Line 113: a sheet index above the number of sheets. -/
theorem iteration_skip_sheet (table : Buffer) (sheets : List Sheet) (sprt_info : Buffer)
    (sprt_path out_dir_path : FsPath) (verbose : Bool) (s : Setup) (i k si : Nat)
    (hk : readU32 sprt_info (keyOffset i) = some k)
    (hgood : s.lowest_entry ≤ k ∧ k ≤ s.highest_entry ∧
        sub32 k s.lowest_entry % (ATT_LEN * ATT_SIZE) = 0)
    (h10 : readU16 table (wrap32 (sub32 k s.lowest_entry + s.attrib_offset) + 20) = some si)
    (hsi : si > sheets.length) :
    (iteration table sheets sprt_info sprt_path out_dir_path verbose s i).result =
      .ok ⟨.skipped .invalidSheet, if verbose then [.skipSheet (i + 1) si] else []⟩ := by
  unfold iteration
  rw [Traced.bind_result_ok _ _ false (invalid_entry_false sprt_info s i k hk hgood)]
  simp only [Bool.false_eq_true, if_false]
  rw [Traced.bind_result_ok _ _ k (descDword_result_some _ _ _ hk)]
  simp only [ATT_SIZE, Nat.reduceMul, Nat.add_zero]
  rw [Traced.bind_result_ok _ _ si (tableWord_result_some _ _ _ h10)]
  simp only [hsi, if_true]
  cases verbose with
  | true =>
    simp only [if_true]
    rw [Traced.bind_result_ok _ _ si (tableWord_result_some _ _ _ h10)]
    rfl
  | false => rfl

/-- Line 119: `sheets[data[10]]` is outside the vector of sheets. -/
theorem iteration_fault_sheet (table : Buffer) (sheets : List Sheet) (sprt_info : Buffer)
    (sprt_path out_dir_path : FsPath) (verbose : Bool) (s : Setup) (i k si : Nat)
    (hk : readU32 sprt_info (keyOffset i) = some k)
    (hgood : s.lowest_entry ≤ k ∧ k ≤ s.highest_entry ∧
        sub32 k s.lowest_entry % (ATT_LEN * ATT_SIZE) = 0)
    (h10 : readU16 table (wrap32 (sub32 k s.lowest_entry + s.attrib_offset) + 20) = some si)
    (hsi : ¬ si > sheets.length) (hsheet : sheets[si]? = none) :
    (iteration table sheets sprt_info sprt_path out_dir_path verbose s i).result =
      .fault (.sheet si) := by
  unfold iteration
  rw [Traced.bind_result_ok _ _ false (invalid_entry_false sprt_info s i k hk hgood)]
  simp only [Bool.false_eq_true, if_false]
  rw [Traced.bind_result_ok _ _ k (descDword_result_some _ _ _ hk)]
  simp only [ATT_SIZE, Nat.reduceMul, Nat.add_zero]
  rw [Traced.bind_result_ok _ _ si (tableWord_result_some _ _ _ h10)]
  simp only [hsi, if_false]
  rw [Traced.bind_result_ok _ _ si (tableWord_result_some _ _ _ h10)]
  rw [Traced.bind_result_fault _ _ _ (sheetAt_result_none _ _ hsheet)]

/-- Line 119: a read of `__is_data_correct__` leaves the table. -/
theorem iteration_fault_data (table : Buffer) (sheets : List Sheet) (sprt_info : Buffer)
    (sprt_path out_dir_path : FsPath) (verbose : Bool) (s : Setup) (i k si : Nat)
    (sheet : Sheet) (a : Access)
    (hk : readU32 sprt_info (keyOffset i) = some k)
    (hgood : s.lowest_entry ≤ k ∧ k ≤ s.highest_entry ∧
        sub32 k s.lowest_entry % (ATT_LEN * ATT_SIZE) = 0)
    (h10 : readU16 table (wrap32 (sub32 k s.lowest_entry + s.attrib_offset) + 20) = some si)
    (hsi : ¬ si > sheets.length) (hsheet : sheets[si]? = some sheet)
    (hdata : (__is_data_correct__ table (wrap32 (sub32 k s.lowest_entry + s.attrib_offset))
      sheet).result = .fault a) :
    (iteration table sheets sprt_info sprt_path out_dir_path verbose s i).result =
      .fault a := by
  unfold iteration
  rw [Traced.bind_result_ok _ _ false (invalid_entry_false sprt_info s i k hk hgood)]
  simp only [Bool.false_eq_true, if_false]
  rw [Traced.bind_result_ok _ _ k (descDword_result_some _ _ _ hk)]
  simp only [ATT_SIZE, Nat.reduceMul, Nat.add_zero]
  rw [Traced.bind_result_ok _ _ si (tableWord_result_some _ _ _ h10)]
  simp only [hsi, if_false]
  rw [Traced.bind_result_ok _ _ si (tableWord_result_some _ _ _ h10)]
  rw [Traced.bind_result_ok _ _ sheet (sheetAt_result_some _ _ _ hsheet)]
  rw [Traced.bind_result_fault _ _ _ hdata]

/-- Line 121: the record fails `__is_data_correct__`. -/
theorem iteration_skip_data (table : Buffer) (sheets : List Sheet) (sprt_info : Buffer)
    (sprt_path out_dir_path : FsPath) (verbose : Bool) (s : Setup) (i k si : Nat)
    (sheet : Sheet)
    (hk : readU32 sprt_info (keyOffset i) = some k)
    (hgood : s.lowest_entry ≤ k ∧ k ≤ s.highest_entry ∧
        sub32 k s.lowest_entry % (ATT_LEN * ATT_SIZE) = 0)
    (h10 : readU16 table (wrap32 (sub32 k s.lowest_entry + s.attrib_offset) + 20) = some si)
    (hsi : ¬ si > sheets.length) (hsheet : sheets[si]? = some sheet)
    (hdata : (__is_data_correct__ table (wrap32 (sub32 k s.lowest_entry + s.attrib_offset))
      sheet).result = .ok false) :
    (iteration table sheets sprt_info sprt_path out_dir_path verbose s i).result =
      .ok ⟨.skipped .incorrectFrameData, if verbose then [.skipData (i + 1)] else []⟩ := by
  unfold iteration
  rw [Traced.bind_result_ok _ _ false (invalid_entry_false sprt_info s i k hk hgood)]
  simp only [Bool.false_eq_true, if_false]
  rw [Traced.bind_result_ok _ _ k (descDword_result_some _ _ _ hk)]
  simp only [ATT_SIZE, Nat.reduceMul, Nat.add_zero]
  rw [Traced.bind_result_ok _ _ si (tableWord_result_some _ _ _ h10)]
  simp only [hsi, if_false]
  rw [Traced.bind_result_ok _ _ si (tableWord_result_some _ _ _ h10)]
  rw [Traced.bind_result_ok _ _ sheet (sheetAt_result_some _ _ _ hsheet)]
  rw [Traced.bind_result_ok _ _ false hdata]
  rfl

theorem cropSheet_result_fault (sheet : Sheet) (index x y width height : Nat)
    (h : ¬ (x + width ≤ sheet.cols ∧ y + height ≤ sheet.rows)) :
    (cropSheet sheet index x y width height).result = .fault (.crop index x y width height) := by
  unfold cropSheet
  rw [if_neg h]

/-- Line 126: the record passed `__is_data_correct__` and its rectangle is not
inside the sheet; the crop throws. -/
theorem iteration_fault_crop (table : Buffer) (sheets : List Sheet) (sprt_info : Buffer)
    (sprt_path out_dir_path : FsPath) (verbose : Bool) (s : Setup) (i k : Nat)
    (x y w h si : Nat) (sheet : Sheet)
    (hk : readU32 sprt_info (keyOffset i) = some k)
    (hgood : s.lowest_entry ≤ k ∧ k ≤ s.highest_entry ∧
        sub32 k s.lowest_entry % (ATT_LEN * ATT_SIZE) = 0)
    (hx : readU16 table (wrap32 (sub32 k s.lowest_entry + s.attrib_offset)) = some x)
    (hy : readU16 table (wrap32 (sub32 k s.lowest_entry + s.attrib_offset) + 2) = some y)
    (hw : readU16 table (wrap32 (sub32 k s.lowest_entry + s.attrib_offset) + 4) = some w)
    (hh : readU16 table (wrap32 (sub32 k s.lowest_entry + s.attrib_offset) + 6) = some h)
    (h10 : readU16 table (wrap32 (sub32 k s.lowest_entry + s.attrib_offset) + 20) = some si)
    (hsheet : sheets[si]? = some sheet)
    (hdata : (__is_data_correct__ table (wrap32 (sub32 k s.lowest_entry + s.attrib_offset))
      sheet).result = .ok true)
    (hcrop : ¬ (x + w ≤ sheet.cols ∧ y + h ≤ sheet.rows)) :
    (iteration table sheets sprt_info sprt_path out_dir_path verbose s i).result =
      .fault (.crop si x y w h) := by
  have hsi : ¬ si > sheets.length := by
    obtain ⟨hlt, -⟩ := List.getElem?_eq_some.mp hsheet
    omega
  unfold iteration
  rw [Traced.bind_result_ok _ _ false (invalid_entry_false sprt_info s i k hk hgood)]
  simp only [Bool.false_eq_true, if_false]
  rw [Traced.bind_result_ok _ _ k (descDword_result_some _ _ _ hk)]
  simp only [ATT_SIZE, Nat.reduceMul, Nat.add_zero]
  rw [Traced.bind_result_ok _ _ si (tableWord_result_some _ _ _ h10)]
  simp only [hsi, if_false]
  rw [Traced.bind_result_ok _ _ si (tableWord_result_some _ _ _ h10)]
  rw [Traced.bind_result_ok _ _ sheet (sheetAt_result_some _ _ _ hsheet)]
  rw [Traced.bind_result_ok _ _ true hdata]
  simp only [not_true_eq_false, if_false]
  rw [Traced.bind_result_ok _ _ x (tableWord_result_some _ _ _ hx)]
  rw [Traced.bind_result_ok _ _ y (tableWord_result_some _ _ _ hy)]
  rw [Traced.bind_result_ok _ _ w (tableWord_result_some _ _ _ hw)]
  rw [Traced.bind_result_ok _ _ h (tableWord_result_some _ _ _ hh)]
  rw [Traced.bind_result_ok _ _ si (tableWord_result_some _ _ _ h10)]
  rw [Traced.bind_result_ok _ _ sheet (sheetAt_result_some _ _ _ hsheet)]
  rw [Traced.bind_result_fault _ _ _ (cropSheet_result_fault _ _ _ _ _ _ hcrop)]

theorem is_data_correct_empty (table : Buffer) (g : Nat) (sheet : Sheet)
    (h : sheet.empty = true) : __is_data_correct__ table g sheet = ⟨[], .ok false⟩ := by
  unfold __is_data_correct__
  rw [if_pos h]
  rfl

/-- The accesses of an iteration that meets an empty sheet: the key, `data[10]` twice
(lines 113 and 119) and the sheet; no field of the rectangle. -/
theorem iteration_reads_empty_sheet (table : Buffer) (sheets : List Sheet) (sprt_info : Buffer)
    (sprt_path out_dir_path : FsPath) (verbose : Bool) (s : Setup) (i k si : Nat)
    (sheet : Sheet)
    (hk : readU32 sprt_info (keyOffset i) = some k)
    (hgood : s.lowest_entry ≤ k ∧ k ≤ s.highest_entry ∧
        sub32 k s.lowest_entry % (ATT_LEN * ATT_SIZE) = 0)
    (h10 : readU16 table (wrap32 (sub32 k s.lowest_entry + s.attrib_offset) + 20) = some si)
    (hsheet : sheets[si]? = some sheet) (hempty : sheet.empty = true) :
    (iteration table sheets sprt_info sprt_path out_dir_path verbose s i).reads =
      [.descriptor (keyOffset i) 4, .descriptor (keyOffset i) 4, .descriptor (keyOffset i) 4,
        .descriptor (keyOffset i) 4,
        .table (wrap32 (sub32 k s.lowest_entry + s.attrib_offset) + 20) 2,
        .table (wrap32 (sub32 k s.lowest_entry + s.attrib_offset) + 20) 2,
        .sheet si] := by
  have hsi : ¬ si > sheets.length := by
    obtain ⟨hlt, -⟩ := List.getElem?_eq_some.mp hsheet
    omega
  have hw : (tableWord table (wrap32 (sub32 k s.lowest_entry + s.attrib_offset) + 20)).reads
      = [.table (wrap32 (sub32 k s.lowest_entry + s.attrib_offset) + 20) 2] := by
    simp [tableWord, h10]
  have hd : (descDword sprt_info (keyOffset i)).reads = [.descriptor (keyOffset i) 4] := by
    simp [descDword, hk]
  have hsh : (sheetAt sheets si).reads = [.sheet si] := by
    simp [sheetAt, hsheet]
  unfold iteration
  rw [Traced.bind_reads_ok _ _ false (invalid_entry_false sprt_info s i k hk hgood),
    invalid_entry_reads sprt_info s i k hk ⟨hgood.1, hgood.2.1⟩]
  simp only [Bool.false_eq_true, if_false]
  rw [Traced.bind_reads_ok _ _ k (descDword_result_some _ _ _ hk), hd]
  simp only [ATT_SIZE, Nat.reduceMul, Nat.add_zero]
  rw [Traced.bind_reads_ok _ _ si (tableWord_result_some _ _ _ h10), hw]
  simp only [hsi, if_false]
  rw [Traced.bind_reads_ok _ _ si (tableWord_result_some _ _ _ h10), hw]
  rw [Traced.bind_reads_ok _ _ sheet (sheetAt_result_some _ _ _ hsheet), hsh]
  rw [is_data_correct_empty _ _ _ hempty]
  rw [Traced.bind_reads_ok _ _ false rfl]
  simp only [Bool.false_eq_true, not_false_eq_true, if_true]
  simp [pure_def, Traced.pure]

/-! ## An iteration decides what `resolve` says -/

theorem resolutionOf_ok_skipped (t : Traced Step) (reason : SkipReason) (log : List LogLine)
    (h : t.result = .ok ⟨.skipped reason, log⟩) : resolutionOf t = .skipped reason := by
  unfold resolutionOf
  rw [h]

theorem resolutionOf_fault (t : Traced Step) (a : Access)
    (h : t.result = .fault a) : resolutionOf t = .fault a := by
  unfold resolutionOf
  rw [h]

theorem resolutionOf_ok_emitted (t : Traced Step) (image : Image) (log : List LogLine)
    (h : t.result = .ok ⟨.emitted image, log⟩) :
    resolutionOf t = .frame image.sheetIndex image.x image.y image.width image.height := by
  unfold resolutionOf
  rw [h]

theorem resolutionOf_fault_iff (t : Traced Step) :
    (∃ a, resolutionOf t = .fault a) ↔ ∃ a, t.result = .fault a := by
  unfold resolutionOf
  rcases t.result with ⟨outcome, log⟩ | a
  · cases outcome <;> simp
  · simp

theorem resolutionOf_congr_fault (t t' : Traced Step) (h : resolutionOf t = resolutionOf t') :
    (∃ a, t.result = .fault a) ↔ ∃ a, t'.result = .fault a := by
  rw [← resolutionOf_fault_iff, ← resolutionOf_fault_iff, h]

theorem outcomeOf_ok (t : Traced Step) (st : Step) (h : t.result = .ok st) :
    outcomeOf t = some st.outcome := by
  unfold outcomeOf
  rw [h]

theorem outcomeOf_fault (t : Traced Step) (a : Access) (h : t.result = .fault a) :
    outcomeOf t = none := by
  unfold outcomeOf
  rw [h]

theorem outcomeOf_eq_none_iff (t : Traced Step) :
    outcomeOf t = none ↔ ∃ a, t.result = .fault a := by
  unfold outcomeOf
  rcases t.result with st | a <;> simp

/-- An iteration decides what `resolve` says for its key. -/
theorem iteration_resolution (table : Buffer) (sheets : List Sheet) (sprt_info : Buffer)
    (sprt_path out_dir_path : FsPath) (verbose : Bool) (s : Setup) (i k : Nat)
    (hk : readU32 sprt_info (keyOffset i) = some k) :
    resolutionOf (iteration table sheets sprt_info sprt_path out_dir_path verbose s i) =
      resolve table sheets s.lowest_entry s.highest_entry s.attrib_offset k := by
  unfold resolve
  by_cases hbad : k > s.highest_entry ∨ k < s.lowest_entry ∨
      sub32 k s.lowest_entry % (ATT_LEN * ATT_SIZE) ≠ 0
  · rw [if_pos hbad]
    exact resolutionOf_ok_skipped _ _ _ (iteration_skip_entry table sheets sprt_info sprt_path
      out_dir_path verbose s i k hk hbad).1
  · rw [if_neg hbad]
    have hgood : s.lowest_entry ≤ k ∧ k ≤ s.highest_entry ∧
        sub32 k s.lowest_entry % (ATT_LEN * ATT_SIZE) = 0 := by
      simp only [not_or, not_lt, ne_eq, not_not] at hbad
      omega
    rcases h10 : readU16 table (wrap32 (sub32 k s.lowest_entry + s.attrib_offset) + 20)
      with _ | si
    · exact resolutionOf_fault _ _ (iteration_fault_sheet_word table sheets sprt_info
        sprt_path out_dir_path verbose s i k hk hgood h10)
    · simp only []
      by_cases hsi : si > sheets.length
      · rw [if_pos hsi]
        exact resolutionOf_ok_skipped _ _ _ (iteration_skip_sheet table sheets sprt_info
          sprt_path out_dir_path verbose s i k si hk hgood h10 hsi)
      · rw [if_neg hsi]
        rcases hsheet : sheets[si]? with _ | sheet
        · exact resolutionOf_fault _ _ (iteration_fault_sheet table sheets sprt_info
            sprt_path out_dir_path verbose s i k si hk hgood h10 hsi hsheet)
        · simp only []
          rcases hdata : (__is_data_correct__ table
            (wrap32 (sub32 k s.lowest_entry + s.attrib_offset)) sheet).result with b | a
          · cases b with
            | false =>
              exact resolutionOf_ok_skipped _ _ _ (iteration_skip_data table sheets sprt_info
                sprt_path out_dir_path verbose s i k si sheet hk hgood h10 hsi hsheet hdata)
            | true =>
              obtain ⟨hempty, d0, d1, d2, d3, h0, h1, h2, h3, c0, c1, c2, c3⟩ :=
                (is_data_correct_true_iff table _ sheet).mp hdata
              by_cases hcrop : d0 + d2 ≤ sheet.cols ∧ d1 + d3 ≤ sheet.rows
              · obtain ⟨log, hlog⟩ := iteration_emits table sheets sprt_info sprt_path
                  out_dir_path verbose s i k d0 d1 d2 d3 si sheet hk hgood h0 h1 h2 h3 h10
                  hsheet hempty c0 c1 c2 c3 hcrop.1 hcrop.2
                rw [resolutionOf_ok_emitted _ _ _ hlog]
                simp only [h0, h1, h2, h3, if_pos hcrop]
              · rw [resolutionOf_fault _ _ (iteration_fault_crop table sheets sprt_info
                  sprt_path out_dir_path verbose s i k d0 d1 d2 d3 si sheet hk hgood h0 h1 h2 h3
                  h10 hsheet hdata hcrop)]
                simp only [h0, h1, h2, h3, if_neg hcrop]
          · exact resolutionOf_fault _ _ (iteration_fault_data table sheets sprt_info
              sprt_path out_dir_path verbose s i k si sheet a hk hgood h10 hsi hsheet hdata)

theorem iteration_outcome (table : Buffer) (sheets : List Sheet) (sprt_info : Buffer)
    (sprt_path out_dir_path : FsPath) (verbose : Bool) (s : Setup) (i k : Nat)
    (hk : readU32 sprt_info (keyOffset i) = some k) :
    outcomeOf (iteration table sheets sprt_info sprt_path out_dir_path verbose s i) =
      outcomeFrom (outputPath sprt_path out_dir_path (i + 1))
        (resolve table sheets s.lowest_entry s.highest_entry s.attrib_offset k) := by
  rw [← iteration_resolution table sheets sprt_info sprt_path out_dir_path verbose s i k hk]
  rcases hr : (iteration table sheets sprt_info sprt_path out_dir_path verbose s i).result
    with ⟨outcome, log⟩ | a
  · cases outcome with
    | skipped reason =>
      rw [resolutionOf_ok_skipped _ _ _ hr]
      simp [outcomeOf, hr, outcomeFrom]
    | emitted image =>
      rw [resolutionOf_ok_emitted _ _ _ hr]
      have hout := (iteration_emitted_inv table sheets sprt_info sprt_path out_dir_path verbose
        s i k _ image hk hr rfl).2.2.2
      simp only [outcomeOf, hr, outcomeFrom, outputPath, ← hout]
  · rw [resolutionOf_fault _ _ hr]
    simp [outcomeOf, hr, outcomeFrom]

/-- The outcome of an iteration does not depend on `verbose`. -/
theorem iteration_outcome_verbose (table : Buffer) (sheets : List Sheet) (sprt_info : Buffer)
    (sprt_path out_dir_path : FsPath) (verbose : Bool) (s : Setup) (i : Nat) :
    outcomeOf (iteration table sheets sprt_info sprt_path out_dir_path verbose s i) =
      outcomeOf (iteration table sheets sprt_info sprt_path out_dir_path false s i) := by
  rcases hk : readU32 sprt_info (keyOffset i) with _ | k
  · simp only [outcomeOf, iteration_fault_key _ _ _ _ _ _ _ _ hk]
  · rw [iteration_outcome _ _ _ _ _ _ _ _ k hk, iteration_outcome _ _ _ _ _ _ _ _ k hk]

/-- `resolve` answers with the skip of line 106 exactly when the key fails the test
of line 104. -/
theorem resolve_eq_invalidTableEntry_iff (table : Buffer) (sheets : List Sheet)
    (lowest highest attrib k : Nat) :
    resolve table sheets lowest highest attrib k = .skipped .invalidTableEntry ↔
      (k > highest ∨ k < lowest ∨ sub32 k lowest % (ATT_LEN * ATT_SIZE) ≠ 0) := by
  unfold resolve
  constructor
  · intro h
    by_contra hbad
    rw [if_neg hbad] at h
    split at h
    · cases h
    · split at h
      · cases h
      · split at h
        · cases h
        · split at h
          · cases h
          · cases h
          · split at h
            · split at h <;> cases h
            · cases h
  · intro hbad
    rw [if_pos hbad]

/-! ## More on the loop and the header -/

theorem loop_succ_ok (body : Nat → Traced Step) (r i : Nat) (st : Step)
    (h : (body i).result = .ok st) : loop body (r + 1) i = body i :: loop body r (i + 1) := by
  rw [loop]
  simp only [h]

theorem loop_succ_fault (body : Nat → Traced Step) (r i : Nat) (a : Access)
    (h : (body i).result = .fault a) : loop body (r + 1) i = [body i] := by
  rw [loop]
  simp only [h]

/-- Two loops whose bodies agree, index by index, on a view `f` that tells whether
an iteration faults have the same list of views. -/
theorem loop_map_congr {β : Type} (f : Traced Step → β)
    (hf : ∀ t t', f t = f t' → ((∃ a, t.result = .fault a) ↔ ∃ a, t'.result = .fault a))
    (body body' : Nat → Traced Step) (r i i' : Nat)
    (h : ∀ p, p < r → f (body (i + p)) = f (body' (i' + p))) :
    (loop body r i).map f = (loop body' r i').map f := by
  induction r generalizing i i' with
  | zero => simp [loop]
  | succ r ih =>
    have h0 : f (body i) = f (body' i') := by simpa using h 0 (by omega)
    have hrest : (loop body r (i + 1)).map f = (loop body' r (i' + 1)).map f := by
      apply ih
      intro p hp
      have := h (p + 1) (by omega)
      rw [show i + (p + 1) = i + 1 + p by omega, show i' + (p + 1) = i' + 1 + p by omega] at this
      exact this
    have hiff := hf _ _ h0
    unfold loop
    rcases hb : (body i).result with st | a
    · rcases hb' : (body' i').result with st' | a'
      · simp only [List.map_cons, h0, hrest]
      · exact absurd (hiff.mpr ⟨a', hb'⟩) (by simp [hb])
    · rcases hb' : (body' i').result with st' | a'
      · exact absurd (hiff.mp ⟨a, hb⟩) (by simp [hb'])
      · simp only [List.map_cons, List.map_nil, h0]

/-- A loop whose first `r1` iterations stay inside their buffers goes on with the
others. -/
theorem loop_add (body : Nat → Traced Step) (r1 r2 i : Nat)
    (hok : ∀ t ∈ loop body r1 i, ∃ st, t.result = .ok st) :
    loop body (r1 + r2) i = loop body r1 i ++ loop body r2 (i + r1) := by
  induction r1 generalizing i with
  | zero => simp [loop]
  | succ r1 ih =>
    rw [show r1 + 1 + r2 = (r1 + r2) + 1 by omega]
    rcases hb : (body i).result with st | a
    · rw [loop_succ_ok body _ i st hb] at hok ⊢
      rw [loop_succ_ok body _ i st hb]
      rw [ih (i + 1) (fun t ht => hok t (List.mem_cons_of_mem _ ht))]
      rw [show i + 1 + r1 = i + (r1 + 1) by omega]
      rfl
    · rw [loop_succ_fault body _ i a hb] at hok
      obtain ⟨st, hst⟩ := hok (body i) (by simp)
      rw [hb] at hst
      cases hst

/-- The images of a loop are written under ordinals that increase strictly. -/
theorem loop_images_increasing (path : Nat → FsPath) (body : Nat → Traced Step)
    (hbody : ∀ i image log, (body i).result = .ok ⟨.emitted image, log⟩ →
      image.output = path (i + 1))
    (r i : Nat) :
    ∃ positions : List Nat,
      positions.Pairwise (· < ·) ∧ (∀ p ∈ positions, i ≤ p) ∧
      (((loop body r i).map outcomeOf).filterMap imageOf).map Image.output
        = positions.map fun p => path (p + 1) := by
  induction r generalizing i with
  | zero => exact ⟨[], List.Pairwise.nil, by simp, by simp [loop]⟩
  | succ r ih =>
    rcases hb : (body i).result with ⟨outcome, log⟩ | a
    · obtain ⟨positions, hpair, hge, hmap⟩ := ih (i + 1)
      rw [loop_succ_ok body r i _ hb]
      cases outcome with
      | skipped reason =>
        refine ⟨positions, hpair, fun p hp => by have := hge p hp; omega, ?_⟩
        simp only [List.map_cons, outcomeOf_ok _ _ hb, List.filterMap_cons, imageOf]
        exact hmap
      | emitted image =>
        refine ⟨i :: positions, ?_, ?_, ?_⟩
        · exact List.Pairwise.cons (fun p hp => by have := hge p hp; omega) hpair
        · intro p hp
          rcases List.mem_cons.mp hp with rfl | hp
          · exact Nat.le_refl _
          · have := hge p hp; omega
        · simp only [List.map_cons, outcomeOf_ok _ _ hb, List.filterMap_cons, imageOf]
          rw [hmap, hbody i image log hb]
    · refine ⟨[], List.Pairwise.nil, by simp, ?_⟩
      rw [loop_succ_fault body r i a hb]
      simp [outcomeOf_fault _ _ hb, imageOf]

/-- Every iteration of a loop emits or skips, unless the loop ends at an iteration
that leaves a buffer. -/
theorem loop_count (body : Nat → Traced Step) (r i : Nat) :
    (((loop body r i).map outcomeOf).filterMap imageOf).length +
        (((loop body r i).map outcomeOf).filterMap reasonOf).length = r ∨
      ∃ t a, (loop body r i).getLast? = some t ∧ t.result = .fault a := by
  induction r generalizing i with
  | zero => left; simp [loop]
  | succ r ih =>
    rcases hb : (body i).result with ⟨outcome, log⟩ | a
    · rw [loop_succ_ok body r i _ hb]
      rcases ih (i + 1) with h | ⟨t, a, hlast, hf⟩
      · left
        cases outcome with
        | skipped reason =>
          simp only [List.map_cons, outcomeOf_ok _ _ hb, List.filterMap_cons, imageOf,
            reasonOf, List.length_cons]
          omega
        | emitted image =>
          simp only [List.map_cons, outcomeOf_ok _ _ hb, List.filterMap_cons, imageOf,
            reasonOf, List.length_cons]
          omega
      · right
        refine ⟨t, a, ?_, hf⟩
        rw [List.getLast?_cons, hlast]
        rfl
    · right
      rw [loop_succ_fault body r i a hb]
      exact ⟨body i, a, by simp, hb⟩

theorem Run.images_eq (r : Run) : r.images = (r.iterations.map outcomeOf).filterMap imageOf := by
  unfold Run.images
  rw [List.filterMap_map]
  congr 1
  funext t
  simp only [Function.comp, outcomeOf]
  rcases t.result with ⟨outcome, log⟩ | a
  · cases outcome <;> rfl
  · rfl

theorem Run.skipped_eq (r : Run) :
    r.skipped = (r.iterations.map outcomeOf).filterMap reasonOf := by
  unfold Run.skipped
  rw [List.filterMap_map]
  congr 1
  funext t
  simp only [Function.comp, outcomeOf]
  rcases t.result with ⟨outcome, log⟩ | a
  · cases outcome <;> rfl
  · rfl

theorem readU32_halves (b : Buffer) (i v : Nat) (h : readU32 b i = some v) :
    ∃ x y, readU16 b i = some x ∧ readU16 b (i + 2) = some y ∧ v = x + 65536 * y := by
  simp only [readU32, Option.bind_eq_bind, Option.bind_eq_some, Option.pure_def,
    Option.some.injEq] at h
  obtain ⟨b0, h0, b1, h1, b2, h2, b3, h3, rfl⟩ := h
  refine ⟨b0.val + 256 * b1.val, b2.val + 256 * b3.val, ?_, ?_, by omega⟩
  · simp [readU16, h0, h1]
  · simp [readU16, h2, h3]

/-- The setup reads the table at bytes 0, 4 and `DW + DW * n_entries`. -/
theorem setup_reads (table sprt_info : Buffer) (s : Setup)
    (h : (setup table sprt_info).result = .ok s) :
    (setup table sprt_info).reads =
      [.table 0 4, .table 4 4, .table (wrap32 (4 + wrap32 (4 * s.n_entries))) 4,
        .descriptor 52 4] := by
  obtain ⟨h0, h4, hh, -, hfc⟩ := (setup_ok_iff table sprt_info s).mp h
  simp [setup, DW, bind_def, Traced.bind, pure_def, Traced.pure, tableDword, descDword, h0, h4,
    hh, hfc]

/-- For a table that `load_table` accepts with at least one entry and
`26 * n + 4 < 2 ^ 32`, the reads of `lowest_entry` and `highest_entry` stay inside
the table. -/
theorem accepted_header_readable (table : Buffer) (n : Nat)
    (hacc : load_table table = .accepted table) (hn : readU32 table 0 = some n)
    (h1 : 1 ≤ n) (hsmall : 26 * n + 4 < 2 ^ 32) :
    (∃ lowest, readU32 table 4 = some lowest) ∧
      wrap32 (4 + wrap32 (4 * n)) = 4 + 4 * n ∧
      ∃ highest, readU32 table (4 + 4 * n) = some highest := by
  have hlen : n * 22 + 4 * (n + 1) ≤ table.length := by
    rw [← declaredSize_eq n hsmall]
    exact (load_table_accepted_iff table n hn).mp hacc
  refine ⟨?_, by unfold wrap32; omega, ?_⟩
  · apply Option.isSome_iff_exists.mp
    rw [readU32_isSome_iff]
    omega
  · apply Option.isSome_iff_exists.mp
    rw [readU32_isSome_iff]
    omega

/-! ## Ordinals and positions -/

/-- Ordinals: in a run of `split_sprite` whose setup succeeds,
* the frame emitted at the 0-based position `i` is written under the ordinal
  `i + 1`, whatever happened at the positions before it;
* the images of the run, in the order they are written, carry ordinals of
  strictly increasing positions;
* nothing is deduplicated: when the positions `i` and `j` hold the same key and
  the frame of position `i` is emitted, the iteration of position `j` emits the
  same sheet and rectangle under its own ordinal `j + 1`;
* the emitted and the skipped frames add up to `frame_count`, unless the run
  ends at an iteration that leaves a buffer or whose crop throws. -/
theorem split_sprite_ordinals (table : Buffer) (sheets : List Sheet)
    (sprt_info : Buffer) (sprt_path out_dir_path : FsPath) (verbose : Bool) (s : Setup)
    (hs : (split_sprite table sheets sprt_info sprt_path out_dir_path verbose).setup.result
      = .ok s) :
    (∀ (i : Nat) (t : Traced Step) (image : Image) (log : List LogLine),
      (split_sprite table sheets sprt_info sprt_path out_dir_path verbose).iterations[i]?
          = some t →
      t.result = .ok ⟨.emitted image, log⟩ →
      image.output = outputPath sprt_path out_dir_path (i + 1)) ∧
    (∃ positions : List Nat,
      positions.Pairwise (· < ·) ∧
      (split_sprite table sheets sprt_info sprt_path out_dir_path verbose).images.map
          Image.output
        = positions.map fun p => outputPath sprt_path out_dir_path (p + 1)) ∧
    (∀ (i j k : Nat) (t t' : Traced Step) (image : Image) (log : List LogLine),
      readU32 sprt_info (56 + 4 * i) = some k → readU32 sprt_info (56 + 4 * j) = some k →
      (split_sprite table sheets sprt_info sprt_path out_dir_path verbose).iterations[i]?
          = some t →
      (split_sprite table sheets sprt_info sprt_path out_dir_path verbose).iterations[j]?
          = some t' →
      t.result = .ok ⟨.emitted image, log⟩ →
      ∃ log', t'.result = .ok ⟨.emitted ⟨outputPath sprt_path out_dir_path (j + 1),
        image.sheetIndex, image.x, image.y, image.width, image.height⟩, log'⟩) ∧
    ((split_sprite table sheets sprt_info sprt_path out_dir_path verbose).images.length +
        (split_sprite table sheets sprt_info sprt_path out_dir_path verbose).skipped.length
        = s.n_sprites ∨
      ∃ t a,
        (split_sprite table sheets sprt_info sprt_path out_dir_path verbose).iterations.getLast?
          = some t ∧
        t.result = .fault a) := by
  rw [split_sprite_setup] at hs
  have hiter := split_sprite_iterations table sheets sprt_info sprt_path out_dir_path verbose
    s hs
  have hpath : ∀ (i : Nat) (image : Image) (log : List LogLine),
      (iteration table sheets sprt_info sprt_path out_dir_path verbose s i).result
        = .ok ⟨.emitted image, log⟩ →
      image.output = outputPath sprt_path out_dir_path (i + 1) := by
    intro i image log hemit
    obtain ⟨k, hk⟩ := iteration_ok_key _ _ _ _ _ _ _ _ _ hemit
    exact (iteration_emitted_inv table sheets sprt_info sprt_path out_dir_path verbose s i k _
      image hk hemit rfl).2.2.2
  have hat : ∀ (i : Nat) (t : Traced Step),
      (split_sprite table sheets sprt_info sprt_path out_dir_path verbose).iterations[i]?
          = some t →
      t = iteration table sheets sprt_info sprt_path out_dir_path verbose s i := by
    intro i t ht
    obtain ⟨s', hs', -, rfl⟩ := split_sprite_iteration_at _ _ _ _ _ _ _ _ ht
    obtain rfl : s = s' := by rw [hs] at hs'; exact Res.ok.inj hs'
    rfl
  refine ⟨?_, ?_, ?_, ?_⟩
  · intro i t image log ht hemit
    rw [hat i t ht] at hemit
    exact hpath i image log hemit
  · obtain ⟨positions, hpair, -, hmap⟩ := loop_images_increasing
      (outputPath sprt_path out_dir_path)
      (iteration table sheets sprt_info sprt_path out_dir_path verbose s) hpath s.n_sprites 0
    exact ⟨positions, hpair, by rw [Run.images_eq, hiter]; exact hmap⟩
  · intro i j k t t' image log hki hkj ht ht' hemit
    rw [hat i t ht] at hemit
    rw [hat j t' ht']
    rw [← keyOffset_eq] at hki hkj
    obtain ⟨hgood, ⟨hx, hy, hw, hh, h10⟩, ⟨sheet, hsheet, hempty, c0, c1, c2, c3, c4, c5⟩,
        -⟩ :=
      iteration_emitted_inv table sheets sprt_info sprt_path out_dir_path verbose s i k _ image
        hki hemit rfl
    exact iteration_emits table sheets sprt_info sprt_path out_dir_path verbose s j k
      image.x image.y image.width image.height image.sheetIndex sheet hkj hgood hx hy hw hh h10
      hsheet hempty c0 c1 c2 c3 c4 c5
  · rw [Run.images_eq, Run.skipped_eq, hiter]
    exact loop_count _ s.n_sprites 0

/-- On the table of Scenario A, a description file that holds the key 100 twice. -/
theorem split_sprite_ordinals_witness :
    (split_sprite tableA [⟨20, 20⟩] (descriptorTwo 100 100) ["spr"] ["out"] false).images.length
        + (split_sprite tableA [⟨20, 20⟩] (descriptorTwo 100 100) ["spr"] ["out"]
            false).skipped.length = 2 ∨
      ∃ t a,
        (split_sprite tableA [⟨20, 20⟩] (descriptorTwo 100 100) ["spr"] ["out"]
          false).iterations.getLast? = some t ∧
        t.result = .fault a :=
  (split_sprite_ordinals tableA [⟨20, 20⟩] (descriptorTwo 100 100) ["spr"] ["out"] false
    ⟨1, 100, 327685, 8, 2⟩ (by decide)).2.2.2

/-- Claim C11, at the input where the code departs from it: on `tableWide` and one
sheet of 10 x 10, a description file with the keys 1 and 0.  The key 1 is
misaligned and its frame is skipped; the key 0 passes every test and its crop
`(5, 0, 6, 1)` throws, so the second frame is neither emitted nor skipped:
0 emitted frames and 1 skipped frame for `frame_count = 2`. -/
theorem emitted_and_skipped_miss_frame_count :
    (split_sprite tableWide [⟨10, 10⟩] (descriptorTwo 1 0) [] [] false).setup.result
      = .ok ⟨1, 0, 5, 8, 2⟩ ∧
    (split_sprite tableWide [⟨10, 10⟩] (descriptorTwo 1 0) [] [] false).iterations.map
        Traced.result
      = [.ok ⟨.skipped .invalidTableEntry, []⟩, .fault (.crop 0 5 0 6 1)] ∧
    (split_sprite tableWide [⟨10, 10⟩] (descriptorTwo 1 0) [] [] false).images = [] ∧
    (split_sprite tableWide [⟨10, 10⟩] (descriptorTwo 1 0) [] [] false).skipped
      = [.invalidTableEntry] ∧
    (split_sprite tableWide [⟨10, 10⟩] (descriptorTwo 1 0) [] [] false).images.length +
        (split_sprite tableWide [⟨10, 10⟩] (descriptorTwo 1 0) [] [] false).skipped.length
      ≠ 2 := by
  decide

/-- Positions that are reached: against one table and one set of sheets, the
resolution of an iteration (the skip reason, the sheet and rectangle emitted, or
the access that ends the run) is `resolve` of its key, wherever the key stands
and in whatever description file.  Hence a description file whose keys are those
of a first file followed by those of a second one resolves to the resolutions of
the first followed by those of the second, provided every iteration of the first
runs to its end. -/
theorem split_sprite_positions_independent (table : Buffer) (sheets : List Sheet)
    (sprt_info sprt_info1 sprt_info2 : Buffer) (sprt_path out_dir_path : FsPath)
    (verbose : Bool) (s s1 s2 : Setup)
    (hs : (split_sprite table sheets sprt_info sprt_path out_dir_path verbose).setup.result
      = .ok s)
    (hs1 : (split_sprite table sheets sprt_info1 sprt_path out_dir_path verbose).setup.result
      = .ok s1)
    (hs2 : (split_sprite table sheets sprt_info2 sprt_path out_dir_path verbose).setup.result
      = .ok s2) :
    (∀ (i k : Nat) (t : Traced Step),
      readU32 sprt_info (56 + 4 * i) = some k →
      (split_sprite table sheets sprt_info sprt_path out_dir_path verbose).iterations[i]?
          = some t →
      resolutionOf t = resolve table sheets s.lowest_entry s.highest_entry s.attrib_offset k) ∧
    (∀ (i j k : Nat) (t t' : Traced Step),
      readU32 sprt_info (56 + 4 * i) = some k → readU32 sprt_info1 (56 + 4 * j) = some k →
      (split_sprite table sheets sprt_info sprt_path out_dir_path verbose).iterations[i]?
          = some t →
      (split_sprite table sheets sprt_info1 sprt_path out_dir_path verbose).iterations[j]?
          = some t' →
      resolutionOf t = resolutionOf t') ∧
    (s.n_sprites = s1.n_sprites + s2.n_sprites →
      (∀ i, i < s1.n_sprites → (readU32 sprt_info1 (56 + 4 * i)).isSome ∧
        readU32 sprt_info (56 + 4 * i) = readU32 sprt_info1 (56 + 4 * i)) →
      (∀ j, j < s2.n_sprites → (readU32 sprt_info2 (56 + 4 * j)).isSome ∧
        readU32 sprt_info (56 + 4 * (s1.n_sprites + j)) = readU32 sprt_info2 (56 + 4 * j)) →
      (∀ t ∈ (split_sprite table sheets sprt_info1 sprt_path out_dir_path verbose).iterations,
        ∃ st, t.result = .ok st) →
      (split_sprite table sheets sprt_info sprt_path out_dir_path verbose).iterations.map
          resolutionOf
        = (split_sprite table sheets sprt_info1 sprt_path out_dir_path verbose).iterations.map
            resolutionOf ++
          (split_sprite table sheets sprt_info2 sprt_path out_dir_path verbose).iterations.map
            resolutionOf) := by
  rw [split_sprite_setup] at hs hs1 hs2
  obtain ⟨h0, h4, hh, hatt, -⟩ := (setup_ok_iff table sprt_info s).mp hs
  obtain ⟨h0', h4', hh', hatt', -⟩ := (setup_ok_iff table sprt_info1 s1).mp hs1
  obtain ⟨h0'', h4'', hh'', hatt'', -⟩ := (setup_ok_iff table sprt_info2 s2).mp hs2
  have e1n : s1.n_entries = s.n_entries := by rw [h0] at h0'; exact (Option.some.inj h0').symm
  have e2n : s2.n_entries = s.n_entries := by
    rw [h0] at h0''; exact (Option.some.inj h0'').symm
  have e1l : s1.lowest_entry = s.lowest_entry := by
    rw [h4] at h4'; exact (Option.some.inj h4').symm
  have e2l : s2.lowest_entry = s.lowest_entry := by
    rw [h4] at h4''; exact (Option.some.inj h4'').symm
  have e1h : s1.highest_entry = s.highest_entry := by
    rw [e1n, hh] at hh'; exact (Option.some.inj hh').symm
  have e2h : s2.highest_entry = s.highest_entry := by
    rw [e2n, hh] at hh''; exact (Option.some.inj hh'').symm
  have e1a : s1.attrib_offset = s.attrib_offset := by rw [hatt', hatt, e1n]
  have e2a : s2.attrib_offset = s.attrib_offset := by rw [hatt'', hatt, e2n]
  have hit := split_sprite_iterations table sheets sprt_info sprt_path out_dir_path verbose s hs
  have hit1 := split_sprite_iterations table sheets sprt_info1 sprt_path out_dir_path verbose
    s1 hs1
  have hit2 := split_sprite_iterations table sheets sprt_info2 sprt_path out_dir_path verbose
    s2 hs2
  -- one position against another
  have hres1 : ∀ (i j k : Nat), readU32 sprt_info (keyOffset i) = some k →
      readU32 sprt_info1 (keyOffset j) = some k →
      resolutionOf (iteration table sheets sprt_info sprt_path out_dir_path verbose s i) =
        resolutionOf (iteration table sheets sprt_info1 sprt_path out_dir_path verbose s1 j) := by
    intro i j k hk hk'
    rw [iteration_resolution _ _ _ _ _ _ _ _ k hk, iteration_resolution _ _ _ _ _ _ _ _ k hk',
      e1l, e1h, e1a]
  have hres2 : ∀ (i j k : Nat), readU32 sprt_info (keyOffset i) = some k →
      readU32 sprt_info2 (keyOffset j) = some k →
      resolutionOf (iteration table sheets sprt_info sprt_path out_dir_path verbose s i) =
        resolutionOf (iteration table sheets sprt_info2 sprt_path out_dir_path verbose s2 j) := by
    intro i j k hk hk'
    rw [iteration_resolution _ _ _ _ _ _ _ _ k hk, iteration_resolution _ _ _ _ _ _ _ _ k hk',
      e2l, e2h, e2a]
  refine ⟨?_, ?_, ?_⟩
  · intro i k t hk ht
    rw [hit] at ht
    obtain ⟨-, rfl⟩ := loop_getElem? _ _ _ _ _ ht
    rw [Nat.zero_add]
    rw [← keyOffset_eq] at hk
    exact iteration_resolution _ _ _ _ _ _ _ _ k hk
  · intro i j k t t' hk hk' ht ht'
    rw [hit] at ht
    rw [hit1] at ht'
    obtain ⟨-, rfl⟩ := loop_getElem? _ _ _ _ _ ht
    obtain ⟨-, rfl⟩ := loop_getElem? _ _ _ _ _ ht'
    rw [Nat.zero_add, Nat.zero_add]
    rw [← keyOffset_eq] at hk hk'
    exact hres1 i j k hk hk'
  · intro hsum hkeys1 hkeys2 hok
    rw [hit, hit1, hit2, hsum]
    rw [hit1] at hok
    have hfirst : (loop (iteration table sheets sprt_info sprt_path out_dir_path verbose s)
          s1.n_sprites 0).map resolutionOf
        = (loop (iteration table sheets sprt_info1 sprt_path out_dir_path verbose s1)
          s1.n_sprites 0).map resolutionOf := by
      apply loop_map_congr resolutionOf resolutionOf_congr_fault
      intro p hp
      obtain ⟨hsome, heq⟩ := hkeys1 p hp
      obtain ⟨k, hk⟩ := Option.isSome_iff_exists.mp hsome
      rw [hk] at heq
      rw [Nat.zero_add]
      rw [← keyOffset_eq] at hk heq
      exact hres1 p p k heq hk
    have hsecond : (loop (iteration table sheets sprt_info sprt_path out_dir_path verbose s)
          s2.n_sprites (0 + s1.n_sprites)).map resolutionOf
        = (loop (iteration table sheets sprt_info2 sprt_path out_dir_path verbose s2)
          s2.n_sprites 0).map resolutionOf := by
      apply loop_map_congr resolutionOf resolutionOf_congr_fault
      intro p hp
      obtain ⟨hsome, heq⟩ := hkeys2 p hp
      obtain ⟨k, hk⟩ := Option.isSome_iff_exists.mp hsome
      rw [hk] at heq
      rw [Nat.zero_add, Nat.zero_add]
      rw [← keyOffset_eq] at hk heq
      exact hres2 _ p k heq hk
    have hok' : ∀ t ∈ loop (iteration table sheets sprt_info sprt_path out_dir_path verbose s)
        s1.n_sprites 0, ∃ st, t.result = .ok st := by
      intro t ht
      have hmem : resolutionOf t ∈ (loop (iteration table sheets sprt_info1 sprt_path
          out_dir_path verbose s1) s1.n_sprites 0).map resolutionOf := by
        rw [← hfirst]
        exact List.mem_map_of_mem _ ht
      obtain ⟨t1, ht1, heq⟩ := List.mem_map.mp hmem
      obtain ⟨st1, hst1⟩ := hok t1 ht1
      rcases hr : t.result with st | a
      · exact ⟨st, rfl⟩
      · have := (resolutionOf_congr_fault t1 t heq).mpr ⟨a, hr⟩
        obtain ⟨a1, ha1⟩ := this
        rw [hst1] at ha1
        cases ha1
    rw [loop_add _ _ _ _ hok', List.map_append, hfirst, hsecond]

/-- On the table of Scenario A the keys 99, 100 resolve as the key 99 followed by the
key 100. -/
theorem split_sprite_positions_independent_witness :
    (split_sprite tableA [⟨20, 20⟩] (descriptorTwo 99 100) [] [] false).iterations.map
        resolutionOf
      = (split_sprite tableA [⟨20, 20⟩] (descriptorOf 99) [] [] false).iterations.map
          resolutionOf ++
        (split_sprite tableA [⟨20, 20⟩] (descriptorOf 100) [] [] false).iterations.map
          resolutionOf :=
  (split_sprite_positions_independent tableA [⟨20, 20⟩] (descriptorTwo 99 100)
    (descriptorOf 99) (descriptorOf 100) [] [] false
    ⟨1, 100, 327685, 8, 2⟩ ⟨1, 100, 327685, 8, 1⟩ ⟨1, 100, 327685, 8, 1⟩
    (by decide) (by decide) (by decide)).2.2 (by decide) (by decide) (by decide)
    (by
      intro t ht
      have h : (split_sprite tableA [⟨20, 20⟩] (descriptorOf 99) [] [] false).iterations
          = [⟨[.descriptor 56 4, .descriptor 56 4],
              .ok ⟨.skipped .invalidTableEntry, []⟩⟩] := by decide
      rw [h, List.mem_singleton] at ht
      exact ⟨⟨.skipped .invalidTableEntry, []⟩, by rw [ht]⟩)

/-- Claim C12, at the input where the code departs from it: on `tableWide` and one
sheet of 10 x 10, the key 1 resolved alone is skipped as an invalid table entry
and the key 0 resolved alone ends at its crop `(5, 0, 6, 1)`, which throws.  In
the description file that holds the keys 0 and 1 in this order the run ends at
position 0 and position 1 has no outcome: the skip of the key 1 is suppressed,
and the outcomes are not those of the key 0 followed by those of the key 1. -/
theorem thrown_crop_suppresses_later_outcome :
    (readU32 (descriptorTwo 0 1) 56 = readU32 (descriptorOf 0) 56 ∧
      readU32 (descriptorTwo 0 1) 60 = readU32 (descriptorOf 1) 56) ∧
    (split_sprite tableWide [⟨10, 10⟩] (descriptorOf 0) [] [] false).iterations.map resolutionOf
      = [.fault (.crop 0 5 0 6 1)] ∧
    (split_sprite tableWide [⟨10, 10⟩] (descriptorOf 1) [] [] false).iterations.map resolutionOf
      = [.skipped .invalidTableEntry] ∧
    (split_sprite tableWide [⟨10, 10⟩] (descriptorTwo 0 1) [] [] false).iterations.map
        resolutionOf
      = [.fault (.crop 0 5 0 6 1)] ∧
    (split_sprite tableWide [⟨10, 10⟩] (descriptorTwo 0 1) [] [] false).iterations[1]?
      = none ∧
    (split_sprite tableWide [⟨10, 10⟩] (descriptorTwo 0 1) [] [] false).iterations.map outcomeOf
      ≠ (split_sprite tableWide [⟨10, 10⟩] (descriptorOf 0) [] [] false).iterations.map
          outcomeOf ++
        (split_sprite tableWide [⟨10, 10⟩] (descriptorOf 1) [] [] false).iterations.map
          outcomeOf := by
  decide

/-! ## The claims C13 to C19 -/

/-- Claim C13: when the key passes the range and alignment tests and the sheet
index of its record names a loaded sheet that is empty, the frame is skipped as
incorrect frame data.  The iteration reads the key, `data[10]` (lines 113 and
119) and the sheet, and nothing else: no field of the rectangle is read and no
crop is attempted, whatever the rectangle is. -/
theorem split_sprite_skips_empty_sheet (table : Buffer) (sheets : List Sheet)
    (sprt_info : Buffer) (sprt_path out_dir_path : FsPath) (verbose : Bool)
    (s : Setup) (k i sheetIndex : Nat) (sheet : Sheet) (t : Traced Step)
    (hs : (split_sprite table sheets sprt_info sprt_path out_dir_path verbose).setup.result
      = .ok s)
    (hk : readU32 sprt_info (56 + 4 * i) = some k)
    (hlo : s.lowest_entry ≤ k) (hhi : k ≤ s.highest_entry)
    (hal : (k - s.lowest_entry) % 22 = 0)
    (h10 : readU16 table (wrap32 (k - s.lowest_entry + s.attrib_offset) + 20)
      = some sheetIndex)
    (hsheet : sheets[sheetIndex]? = some sheet) (hempty : sheet.empty = true)
    (ht : (split_sprite table sheets sprt_info sprt_path out_dir_path verbose).iterations[i]?
      = some t) :
    t.result =
        .ok ⟨.skipped .incorrectFrameData, if verbose then [.skipData (i + 1)] else []⟩ ∧
      t.reads =
        [.descriptor (56 + 4 * i) 4, .descriptor (56 + 4 * i) 4, .descriptor (56 + 4 * i) 4,
          .descriptor (56 + 4 * i) 4,
          .table (wrap32 (k - s.lowest_entry + s.attrib_offset) + 20) 2,
          .table (wrap32 (k - s.lowest_entry + s.attrib_offset) + 20) 2,
          .sheet sheetIndex] := by
  rw [split_sprite_setup] at hs
  obtain ⟨s', hs', -, rfl⟩ := split_sprite_iteration_at _ _ _ _ _ _ _ _ ht
  obtain rfl : s = s' := by rw [hs] at hs'; exact Res.ok.inj hs'
  have hsub : sub32 k s.lowest_entry = k - s.lowest_entry :=
    sub32_of_le hlo (readU32_lt hk)
  rw [← keyOffset_eq] at hk ⊢
  rw [← hsub] at h10 ⊢
  have hgood : s.lowest_entry ≤ k ∧ k ≤ s.highest_entry ∧
      sub32 k s.lowest_entry % (ATT_LEN * ATT_SIZE) = 0 := ⟨hlo, hhi, by rw [hsub]; exact hal⟩
  have hsi : ¬ sheetIndex > sheets.length := by
    obtain ⟨hlt, -⟩ := List.getElem?_eq_some.mp hsheet
    omega
  constructor
  · exact iteration_skip_data table sheets sprt_info sprt_path out_dir_path verbose s i k
      sheetIndex sheet hk hgood h10 hsi hsheet
      (by rw [is_data_correct_empty _ _ _ hempty])
  · exact iteration_reads_empty_sheet table sheets sprt_info sprt_path out_dir_path verbose
      s i k sheetIndex sheet hk hgood h10 hsheet hempty

/-- Witness of C13: a record `(0, 0, 0, 0)` on a sheet that failed to decode. -/
theorem split_sprite_skips_empty_sheet_witness :
    ∃ t, (split_sprite tableZeroRect [⟨0, 0⟩] (descriptorOf 0) [] [] false).iterations[0]?
        = some t ∧
      t.result = .ok ⟨.skipped .incorrectFrameData, []⟩ :=
  ⟨⟨[.descriptor 56 4, .descriptor 56 4, .descriptor 56 4, .descriptor 56 4, .table 28 2,
      .table 28 2, .sheet 0], .ok ⟨.skipped .incorrectFrameData, []⟩⟩, by decide,
    (split_sprite_skips_empty_sheet tableZeroRect [⟨0, 0⟩] (descriptorOf 0) [] [] false
      ⟨1, 0, 0, 8, 1⟩ 0 0 0 ⟨0, 0⟩ _ (by decide) (by decide) (by decide) (by decide)
      (by decide) (by decide) (by decide) (by decide) (by decide)).1⟩

/-- Claim C14 as stated fails on the table of Scenario A (lowest key 100): the key
99, out of range, and the key 101, in range and misaligned, end with the same
skip, the one of line 106, and with the same message when `verbose` is set. -/
theorem out_of_range_and_misaligned_share_reason :
    (99 < 100 ∧ (100 ≤ 101 ∧ 101 ≤ 327685 ∧ (101 - 100) % 22 ≠ 0)) ∧
    (split_sprite tableA [⟨20, 20⟩] (descriptorOf 99) [] [] true).setup.result
      = .ok ⟨1, 100, 327685, 8, 1⟩ ∧
    (split_sprite tableA [⟨20, 20⟩] (descriptorOf 99) [] [] true).iterations.map Traced.result
      = [.ok ⟨.skipped .invalidTableEntry, [.skipEntry 1]⟩] ∧
    (split_sprite tableA [⟨20, 20⟩] (descriptorOf 101) [] [] true).iterations.map Traced.result
      = [.ok ⟨.skipped .invalidTableEntry, [.skipEntry 1]⟩] := by
  decide

/-- Claim C14, amended: the failing conditions are reported with three pairwise
distinct skip reasons.  A key out of range and an in-range misaligned key both
end with the skip "invalid table entry" of line 106; a record whose sheet index
is above the number of sheets ends with "invalid sheet" (line 115); a record
that fails `__is_data_correct__` ends with "incorrect frame data" (line 121). -/
theorem split_sprite_skip_reasons (table : Buffer) (sheets : List Sheet)
    (sprt_info : Buffer) (sprt_path out_dir_path : FsPath) (verbose : Bool)
    (s : Setup) (k i : Nat) (t : Traced Step)
    (hs : (split_sprite table sheets sprt_info sprt_path out_dir_path verbose).setup.result
      = .ok s)
    (hk : readU32 sprt_info (56 + 4 * i) = some k)
    (ht : (split_sprite table sheets sprt_info sprt_path out_dir_path verbose).iterations[i]?
      = some t) :
    ((k < s.lowest_entry ∨ k > s.highest_entry) →
      t.result =
        .ok ⟨.skipped .invalidTableEntry, if verbose then [.skipEntry (i + 1)] else []⟩) ∧
    ((s.lowest_entry ≤ k ∧ k ≤ s.highest_entry ∧ (k - s.lowest_entry) % 22 ≠ 0) →
      t.result =
        .ok ⟨.skipped .invalidTableEntry, if verbose then [.skipEntry (i + 1)] else []⟩) ∧
    ((s.lowest_entry ≤ k ∧ k ≤ s.highest_entry ∧ (k - s.lowest_entry) % 22 = 0) →
      ∀ sheetIndex,
        readU16 table (wrap32 (k - s.lowest_entry + s.attrib_offset) + 20) = some sheetIndex →
        (sheetIndex > sheets.length →
          t.result = .ok ⟨.skipped .invalidSheet,
            if verbose then [.skipSheet (i + 1) sheetIndex] else []⟩) ∧
        ∀ sheet, sheets[sheetIndex]? = some sheet →
          (__is_data_correct__ table (wrap32 (k - s.lowest_entry + s.attrib_offset))
            sheet).result = .ok false →
          t.result = .ok ⟨.skipped .incorrectFrameData,
            if verbose then [.skipData (i + 1)] else []⟩) ∧
    (SkipReason.invalidTableEntry ≠ SkipReason.invalidSheet ∧
      SkipReason.invalidTableEntry ≠ SkipReason.incorrectFrameData ∧
      SkipReason.invalidSheet ≠ SkipReason.incorrectFrameData) := by
  rw [split_sprite_setup] at hs
  obtain ⟨s', hs', -, rfl⟩ := split_sprite_iteration_at _ _ _ _ _ _ _ _ ht
  obtain rfl : s = s' := by rw [hs] at hs'; exact Res.ok.inj hs'
  have hklt := readU32_lt hk
  rw [← keyOffset_eq] at hk
  refine ⟨?_, ?_, ?_, by decide⟩
  · intro hout
    exact (iteration_skip_entry table sheets sprt_info sprt_path out_dir_path verbose s i k hk
      (by omega)).1
  · rintro ⟨hlo, hhi, hmis⟩
    exact (iteration_skip_entry table sheets sprt_info sprt_path out_dir_path verbose s i k hk
      (Or.inr (Or.inr (by rw [sub32_of_le hlo hklt]; exact hmis)))).1
  · rintro ⟨hlo, hhi, hal⟩ sheetIndex h10
    have hsub : sub32 k s.lowest_entry = k - s.lowest_entry := sub32_of_le hlo hklt
    rw [← hsub] at h10 ⊢
    have hgood : s.lowest_entry ≤ k ∧ k ≤ s.highest_entry ∧
        sub32 k s.lowest_entry % (ATT_LEN * ATT_SIZE) = 0 :=
      ⟨hlo, hhi, by rw [hsub]; exact hal⟩
    constructor
    · intro hsi
      exact iteration_skip_sheet table sheets sprt_info sprt_path out_dir_path verbose s i k
        sheetIndex hk hgood h10 hsi
    · intro sheet hsheet hdata
      have hsi : ¬ sheetIndex > sheets.length := by
        obtain ⟨hlt, -⟩ := List.getElem?_eq_some.mp hsheet
        omega
      exact iteration_skip_data table sheets sprt_info sprt_path out_dir_path verbose s i k
        sheetIndex sheet hk hgood h10 hsi hsheet hdata

/-- Witness of C14 (amended): the key 99 on the table of Scenario A. -/
theorem split_sprite_skip_reasons_witness :
    ∃ t, (split_sprite tableA [⟨20, 20⟩] (descriptorOf 99) [] [] true).iterations[0]?
        = some t ∧
      t.result = .ok ⟨.skipped .invalidTableEntry, [.skipEntry 1]⟩ :=
  ⟨⟨[.descriptor 56 4, .descriptor 56 4], .ok ⟨.skipped .invalidTableEntry, [.skipEntry 1]⟩⟩,
    by decide,
    (split_sprite_skip_reasons tableA [⟨20, 20⟩] (descriptorOf 99) [] [] true
      ⟨1, 100, 327685, 8, 1⟩ 99 0 _ (by decide) (by decide) (by decide)).1 (by decide)⟩

/-- Claim C15 as stated fails on its own example: for the descriptor `spr.dat` and
the ordinal 1 the image is written to `target/spr.dat/spr.dat1.png`, not to
`target/spr/spr1.png`. -/
theorem output_path_keeps_extension :
    (split_sprite tableA [⟨20, 20⟩] (descriptorOf 100) ["sprt", "spr.dat"] ["target"]
        false).images.map Image.output
      = [["target", "spr.dat", "spr.dat1.png"]] ∧
    (["target", "spr.dat", "spr.dat1.png"] : FsPath) ≠ ["target", "spr", "spr1.png"] := by
  decide

/-- Claim C15, amended: the frame emitted at position `i` (ordinal `i + 1`) is
written to `target / name / (name ++ decimal (i + 1) ++ ".png")`, where `name`
is the file name of the descriptor, its extension included. -/
theorem split_sprite_output_path (table : Buffer) (sheets : List Sheet)
    (sprt_info : Buffer) (sprt_path out_dir_path : FsPath) (verbose : Bool)
    (i : Nat) (t : Traced Step) (image : Image) (log : List LogLine)
    (ht : (split_sprite table sheets sprt_info sprt_path out_dir_path verbose).iterations[i]?
      = some t)
    (hemit : t.result = .ok ⟨.emitted image, log⟩) :
    image.output = out_dir_path ++ [filename sprt_path,
      filename sprt_path ++ toString (i + 1) ++ ".png"] := by
  obtain ⟨s, -, -, rfl⟩ := split_sprite_iteration_at _ _ _ _ _ _ _ _ ht
  obtain ⟨k, hk⟩ := iteration_ok_key _ _ _ _ _ _ _ _ _ hemit
  exact (iteration_emitted_inv table sheets sprt_info sprt_path out_dir_path verbose s i k _
    image hk hemit rfl).2.2.2

/-- Witness of C15 (amended): the descriptor `spr.dat`, ordinal 1. -/
theorem split_sprite_output_path_witness :
    ∃ t image log,
      (split_sprite tableA [⟨20, 20⟩] (descriptorOf 100) ["sprt", "spr.dat"] ["target"]
        false).iterations[0]? = some t ∧
      t.result = .ok ⟨.emitted image, log⟩ ∧
      image.output = ["target", "spr.dat", "spr.dat1.png"] :=
  ⟨iteration tableA [⟨20, 20⟩] (descriptorOf 100) ["sprt", "spr.dat"] ["target"] false
      ⟨1, 100, 327685, 8, 1⟩ 0,
    ⟨["target", "spr.dat", "spr.dat1.png"], 0, 5, 5, 10, 10⟩, [], by decide, by decide,
    (split_sprite_output_path tableA [⟨20, 20⟩] (descriptorOf 100) ["sprt", "spr.dat"]
      ["target"] false 0
      (iteration tableA [⟨20, 20⟩] (descriptorOf 100) ["sprt", "spr.dat"] ["target"] false
        ⟨1, 100, 327685, 8, 1⟩ 0)
      ⟨["target", "spr.dat", "spr.dat1.png"], 0, 5, 5, 10, 10⟩ [] (by decide) (by decide))⟩

/-- Claim C16: with `verbose` set or not, `split_sprite` does the same reads before
the loop and its iterations end the same way, position by position: the same
frames (sheet, rectangle and file, whose name carries the ordinal) are emitted
and the same positions are skipped, for the same reasons. -/
theorem split_sprite_verbose_only_logs (table : Buffer) (sheets : List Sheet)
    (sprt_info : Buffer) (sprt_path out_dir_path : FsPath) :
    (split_sprite table sheets sprt_info sprt_path out_dir_path true).iterations.map outcomeOf
      = (split_sprite table sheets sprt_info sprt_path out_dir_path false).iterations.map
          outcomeOf ∧
    (split_sprite table sheets sprt_info sprt_path out_dir_path true).images
      = (split_sprite table sheets sprt_info sprt_path out_dir_path false).images ∧
    (split_sprite table sheets sprt_info sprt_path out_dir_path true).skipped
      = (split_sprite table sheets sprt_info sprt_path out_dir_path false).skipped ∧
    (split_sprite table sheets sprt_info sprt_path out_dir_path true).setup
      = (split_sprite table sheets sprt_info sprt_path out_dir_path false).setup := by
  have hmap :
      (split_sprite table sheets sprt_info sprt_path out_dir_path true).iterations.map outcomeOf
        = (split_sprite table sheets sprt_info sprt_path out_dir_path false).iterations.map
            outcomeOf := by
    rcases hs : (setup table sprt_info).result with s | a
    · rw [split_sprite_iterations _ _ _ _ _ _ s hs, split_sprite_iterations _ _ _ _ _ _ s hs]
      apply loop_map_congr outcomeOf
      · intro t t' h
        rw [← outcomeOf_eq_none_iff, ← outcomeOf_eq_none_iff, h]
      · intro p _
        exact iteration_outcome_verbose table sheets sprt_info sprt_path out_dir_path true s _
    · unfold split_sprite
      simp only [hs, List.map_nil]
  refine ⟨hmap, ?_, ?_, ?_⟩
  · rw [Run.images_eq, Run.images_eq, hmap]
  · rw [Run.skipped_eq, Run.skipped_eq, hmap]
  · rw [split_sprite_setup, split_sprite_setup]

/-- Claim C17: when `entry_count = n < 2 ^ 30 - 1`, the third read of the setup, the
one of `highest_entry`, is at byte `4 + 4 * n`, which is `attrib_offset =
4 * (n + 1)`, the byte where the record addressed by the key `lowest_entry`
starts.  So `highest_entry = originX + 65536 * originY` for the first two words
of that record, and a frame whose key is `lowest_entry` passes line 104 if and
only if `lowest_entry <= originX + 65536 * originY`. -/
theorem highest_entry_is_first_record_origin (table : Buffer) (sheets : List Sheet)
    (sprt_info : Buffer) (sprt_path out_dir_path : FsPath) (verbose : Bool) (s : Setup)
    (hs : (split_sprite table sheets sprt_info sprt_path out_dir_path verbose).setup.result
      = .ok s)
    (hn : s.n_entries < 2 ^ 30 - 1) :
    (split_sprite table sheets sprt_info sprt_path out_dir_path verbose).setup.reads[2]?
      = some (.table (4 + 4 * s.n_entries) 4) ∧
    s.attrib_offset = 4 * (s.n_entries + 1) ∧
    4 + 4 * s.n_entries = 4 * (s.n_entries + 1) ∧
    wrap32 (sub32 s.lowest_entry s.lowest_entry + s.attrib_offset) = 4 * (s.n_entries + 1) ∧
    ∃ originX originY,
      readU16 table (4 * (s.n_entries + 1)) = some originX ∧
      readU16 table (4 * (s.n_entries + 1) + 2) = some originY ∧
      s.highest_entry = originX + 65536 * originY ∧
      ∀ (i : Nat) (t : Traced Step),
        readU32 sprt_info (56 + 4 * i) = some s.lowest_entry →
        (split_sprite table sheets sprt_info sprt_path out_dir_path verbose).iterations[i]?
          = some t →
        (resolutionOf t ≠ .skipped .invalidTableEntry ↔
          s.lowest_entry ≤ originX + 65536 * originY) := by
  rw [split_sprite_setup] at hs ⊢
  obtain ⟨h0, h4, hh, hatt, hfc⟩ := (setup_ok_iff table sprt_info s).mp hs
  have hw : wrap32 (4 + wrap32 (4 * s.n_entries)) = 4 + 4 * s.n_entries := by
    unfold wrap32; omega
  have hatt' : s.attrib_offset = 4 * (s.n_entries + 1) := by
    rw [hatt]; unfold wrap32; omega
  have hlo := readU32_lt h4
  have hg : wrap32 (sub32 s.lowest_entry s.lowest_entry + s.attrib_offset)
      = 4 * (s.n_entries + 1) := by
    rw [sub32_of_le (Nat.le_refl _) hlo, hatt']
    unfold wrap32; omega
  rw [hw] at hh
  obtain ⟨x, y, hx, hy, hv⟩ := readU32_halves table _ _ hh
  rw [show 4 + 4 * s.n_entries = 4 * (s.n_entries + 1) by omega] at hx hy
  refine ⟨?_, hatt', by omega, hg, x, y, hx, hy, hv, ?_⟩
  · rw [setup_reads table sprt_info s hs, hw]
    rfl
  · intro i t hk ht
    obtain ⟨s', hs', -, rfl⟩ := split_sprite_iteration_at _ _ _ _ _ _ _ _ ht
    obtain rfl : s = s' := by rw [hs] at hs'; exact Res.ok.inj hs'
    rw [← keyOffset_eq] at hk
    rw [iteration_resolution _ _ _ _ _ _ _ _ _ hk, Ne, resolve_eq_invalidTableEntry_iff,
      sub32_of_le (Nat.le_refl _) hlo, ← hv]
    simp

/-- Witness of C17: the table of Scenario A, where `highest_entry` is read at
byte 8. -/
theorem highest_entry_is_first_record_origin_witness :
    (split_sprite tableA [⟨20, 20⟩] (descriptorOf 100) [] [] false).setup.reads[2]?
      = some (.table (4 + 4 * 1) 4) :=
  (highest_entry_is_first_record_origin tableA [⟨20, 20⟩] (descriptorOf 100) [] [] false
    ⟨1, 100, 327685, 8, 1⟩ (by decide) (by decide)).1

/-- Claim C18: for a table that `load_table` accepts, with `entry_count = n`,
`26 * n + 4 < 2 ^ 32` and `j < n` (so `n >= 1`), the record addressed by the key
`lowest_key + 22 * j` lies inside the table: `4 * (n + 1) + 22 * j + 22` is at
most the length of the table, this offset is the `global_offset` that
`split_sprite` computes for the key, and each of the 11 words of the record can
be read. -/
theorem load_table_covers_declared_records (table : Buffer) (n j : Nat)
    (hacc : load_table table = .accepted table) (hn : readU32 table 0 = some n)
    (hsmall : 26 * n + 4 < 2 ^ 32) (hj : j < n) :
    4 * (n + 1) + 22 * j + 22 ≤ table.length ∧
    (∀ lowest, lowest + 22 * j < 2 ^ 32 →
      wrap32 (sub32 (lowest + 22 * j) lowest + wrap32 (DW * wrap32 (n + 1)))
        = 4 * (n + 1) + 22 * j) ∧
    ∀ field, field < ATT_LEN →
      ∃ v, readU16 table (4 * (n + 1) + 22 * j + ATT_SIZE * field) = some v := by
  have hlen : n * 22 + 4 * (n + 1) ≤ table.length := by
    rw [← declaredSize_eq n hsmall]
    exact (load_table_accepted_iff table n hn).mp hacc
  refine ⟨by omega, ?_, ?_⟩
  · intro lowest hlo
    rw [sub32_of_le (by omega) hlo]
    simp only [DW, wrap32]
    omega
  · intro field hf
    apply Option.isSome_iff_exists.mp
    rw [readU16_isSome_iff]
    simp only [ATT_LEN, ATT_SIZE] at hf ⊢
    omega

/-- Witness of C18: the table of Scenario A, `n = 1` and `j = 0`. -/
theorem load_table_covers_declared_records_witness :
    4 * (1 + 1) + 22 * 0 + 22 ≤ tableA.length :=
  (load_table_covers_declared_records tableA 1 0 (by decide) (by decide) (by decide)
    (by decide)).1

/-- Claim C19, at the input where the code departs from it: a table file of four
zero bytes (`entry_count = 0`) is accepted by `load_table`, and `split_sprite`
then reads `lowest_entry` at bytes 4 to 7, outside the buffer. -/
theorem header_read_past_accepted_empty_table :
    load_table emptyTable = .accepted emptyTable ∧
    readU32 emptyTable 0 = some 0 ∧
    ¬ (4 + 4 ≤ emptyTable.length) ∧
    (split_sprite emptyTable [⟨20, 20⟩] (descriptorOf 0) [] [] false).setup
      = ⟨[.table 0 4], .fault (.table 4 4)⟩ := by
  decide

end SpriteSplitter
